import Mathlib

/-!
Shallow embedding of the physics synchronization layer of the `deeper`
repository (file `src/systems/physics.rs`), together with proofs about the
per-tick pipeline that keeps the legion component world and the nphysics2d
backend consistent.

Modelling conventions:
* `f32` scalars are modelled by `F`: a finite rational (abstracting from
  rounding) or one of the non-finite IEEE values.
* The nphysics2d arenas (`DefaultBodySet`, `DefaultColliderSet`) are modelled
  as partial maps from natural-number keys, with a monotone fresh-key counter;
  a handle is such a key.
* Legion system iteration is modelled as structural recursion over the list of
  entities, in list order.
* The legion `CommandBuffer` is modelled by an explicit list of staged
  commands, applied in order at `flush_command_buffer`.
* The legion `maybe_changed::<BodyHandle>` filter is modelled by a per-entity
  flag `bodyHandleChanged`, set when a `BodyHandle` component is written and
  cleared once the reading system has run.
-/

namespace Deeper

/-- Model of an `f32` scalar: a finite value (as a rational, abstracting from
rounding) or one of the non-finite IEEE values. -/
inductive F where
  | fin : ℚ → F
  | nan : F
  | inf : F
  | ninf : F
deriving DecidableEq, Repr

/-- Model of `f32::is_finite`. -/
def F.isFinite : F → Bool
  | .fin _ => true
  | _ => false

/-- The `f32` value of pi (the value used by the `cgmath` angle conversions),
as an exact rational. -/
def pi32 : ℚ := 13176795 / 4194304

/-- Model of `cgmath::Rad::from(Deg(d))`: multiplication by pi / 180.
Multiplying a non-finite value by the positive finite constant leaves it
unchanged under IEEE semantics. -/
def F.degToRad : F → F
  | .fin q => .fin (q * pi32 / 180)
  | x => x

/-- Model of `cgmath::Deg::from(Rad(r))`: multiplication by 180 / pi. -/
def F.radToDeg : F → F
  | .fin q => .fin (q * 180 / pi32)
  | x => x

/-- A two-dimensional `f32` vector (`cgmath::Vector2<f32>` and
`nalgebra::Vector2<f32>`; the conversions `n2c` and `c2n` are the identity in
this model). -/
structure Vec2 where
  x : F
  y : F
deriving DecidableEq, Repr

def Vec2.zero : Vec2 := ⟨.fin 0, .fin 0⟩

/-- The `DynamicBody` component. Its `mass` field is read by
`make_body_handles` (the component itself is defined outside the given source
files; its shape is taken from the call sites `dyna.mass` and
`DynamicBody { mass }`). -/
structure DynamicBody where
  mass : ℚ
deriving DecidableEq, Repr

/-- The components of one entity that the physics systems read or write.
Each field models the presence (`some`) or absence (`none`) of the
corresponding legion component.  `StaticBody`, `DisabledBody`, `Speed`,
`Acceleration` and `Force` are only ever tested for presence by the physics
code, so they are modelled as `Option Unit`.  `CircleCollider` carries its
`radius` field, `SquareCollider` its `side_length` field.  `bodyHandle` and
`colliderHandle` model the `BodyHandle` and `ColliderHandle` wrapper
components around backend arena keys.  `bodyHandleChanged` models the legion
change tracking consulted by `maybe_changed::<BodyHandle>`. -/
structure EntityComps where
  position : Option Vec2 := none
  velocity : Option Vec2 := none
  orientation : Option F := none
  speed : Option Unit := none
  acceleration : Option Unit := none
  force : Option Unit := none
  dynamicBody : Option DynamicBody := none
  staticBody : Option Unit := none
  disabledBody : Option Unit := none
  circleCollider : Option ℚ := none
  squareCollider : Option ℚ := none
  bodyHandle : Option ℕ := none
  bodyHandleChanged : Bool := false
  colliderHandle : Option ℕ := none
deriving DecidableEq, Repr

/-- `nphysics2d::object::BodyStatus` (the three values used by the source). -/
inductive BodyStatus where
  | Dynamic
  | Static
  | Disabled
deriving DecidableEq, Repr

/-- The state of one backend rigid body that the source reads or writes:
the descriptor fields set by `make_body_handles` and the kinematic state
exchanged by the two projector systems. -/
structure RigidBody where
  status : BodyStatus
  gravity_enabled : Bool
  mass : ℚ
  position : Vec2
  rotation : F
  linvel : Vec2
deriving DecidableEq, Repr

/-- `RigidBodyDesc::<f32>::new()` defaults together with the initial state of
a freshly built body: dynamic status, gravity enabled, zero mass, identity
isometry, zero velocity. -/
def rigidBodyDescNew : RigidBody where
  status := .Dynamic
  gravity_enabled := true
  mass := 0
  position := Vec2.zero
  rotation := .fin 0
  linvel := Vec2.zero

/-- The two collider shapes built by `make_collider_handles`:
`Ball::new(radius)` and `Cuboid::new(half_extents)`. -/
inductive Shape where
  | ball (radius : ℚ)
  | cuboid (hx hy : ℚ)
deriving DecidableEq, Repr

/-- A backend collider: its shape and the body (part) it is attached to. -/
structure Collider where
  shape : Shape
  parent : ℕ
deriving DecidableEq, Repr

/-- The `PhysicsResource` of the source, restricted to the parts the
synchronization code touches: the body and collider arenas.  The arenas are
modelled as partial maps with a monotone fresh-key counter; `insert` stores at
the counter and bumps it, `remove` clears a key. -/
structure PhysicsResource where
  bodies : ℕ → Option RigidBody
  nextBody : ℕ
  colliders : ℕ → Option Collider
  nextCollider : ℕ

/-- A command staged in a legion `CommandBuffer` by the physics systems:
adding or removing a `BodyHandle` or `ColliderHandle` component. -/
inductive Cmd where
  | addBodyHandle (ent h : ℕ)
  | removeBodyHandle (ent : ℕ)
  | addColliderHandle (ent h : ℕ)
  | removeColliderHandle (ent : ℕ)
deriving DecidableEq, Repr

/-- The entity a staged command applies to. -/
def Cmd.entOf : Cmd → ℕ
  | .addBodyHandle j _ => j
  | .removeBodyHandle j => j
  | .addColliderHandle j _ => j
  | .removeColliderHandle j => j

/-- The component world: entities (by id) with their components. -/
abbrev World := List (ℕ × EntityComps)

/-- The whole mutable state threaded through one tick of the pipeline. -/
structure State where
  world : World
  phys : PhysicsResource
  cmds : List Cmd

/-- Look up the components of entity `i`. -/
def findEnt (w : World) (i : ℕ) : Option EntityComps :=
  (w.find? (fun e => e.1 == i)).map Prod.snd

/-- Entity ids are mutually distinct (legion guarantees this for a `World`). -/
def WFIds (w : World) : Prop := (w.map Prod.fst).Nodup

instance (w : World) : Decidable (WFIds w) := List.nodupDecidable _

/-- First panic of the `DynamicBody` query of `validate_physics_entities`,
for a single entity. -/
def dynCheck (c : EntityComps) : Option String :=
  if c.dynamicBody.isSome then
    if c.position.isNone then some "missing Position in DynamicBody"
    else if c.velocity.isNone then some "missing Velocity in DynamicBody"
    else if c.orientation.isNone then some "missing Orientation in DynamicBody"
    else if c.staticBody.isSome then
      some "There is a naughty StaticBody that really feels DynamicBody inside."
    else none
  else none

/-- First panic of the `StaticBody` query of `validate_physics_entities`,
for a single entity. -/
def statCheck (c : EntityComps) : Option String :=
  if c.staticBody.isSome then
    if c.position.isNone then some "missing Position in StaticBody"
    else if c.velocity.isSome then some "StaticBody cannot have a Velocity component"
    else if c.speed.isSome then some "StaticBody cannot have a Speed component"
    else if c.acceleration.isSome then some "StaticBody cannot have a Acceleration component"
    else if c.force.isSome then some "StaticBody cannot have a Force component"
    else none
  else none

/-- `validate_physics_entities`: run the `DynamicBody` query over all
entities, then the `StaticBody` query; a panic is modelled as an error
carrying the panic message. -/
def validate_physics_entities (w : World) : Except String Unit :=
  match w.findSome? (fun e => dynCheck e.2) with
  | some msg => .error msg
  | none =>
    match w.findSome? (fun e => statCheck e.2) with
    | some msg => .error msg
    | none => .ok ()

/-- The rigid body built by `make_body_handles` for an entity, following the
if-chain of the source: `DynamicBody` first (dynamic status, gravity
disabled, given mass), then `StaticBody`, then `DisabledBody`; `none` when
the entity carries no body-kind tag. -/
def bodyDescFor (c : EntityComps) : Option RigidBody :=
  match c.dynamicBody with
  | some dyna =>
    some { rigidBodyDescNew with
            status := .Dynamic, gravity_enabled := false, mass := dyna.mass }
  | none =>
    match c.staticBody with
    | some _ => some { rigidBodyDescNew with status := .Static }
    | none =>
      match c.disabledBody with
      | some _ => some { rigidBodyDescNew with status := .Disabled }
      | none => none

/-- Presence of a body-kind tag (the positive filter of
`make_body_handles`). -/
def hasBodyTag (c : EntityComps) : Bool :=
  c.dynamicBody.isSome || c.staticBody.isSome || c.disabledBody.isSome

/-- Presence of a collider-shape tag (the positive filter of
`make_collider_handles`). -/
def hasShapeTag (c : EntityComps) : Bool :=
  c.circleCollider.isSome || c.squareCollider.isSome

/-- Iteration of `make_body_handles` over the entities: for every entity with
a body-kind tag and no `BodyHandle`, insert a body built from the descriptor
into the arena and stage an `add_component` of the returned handle. -/
def make_body_handles_fold :
    List (ℕ × EntityComps) → PhysicsResource → List Cmd → PhysicsResource × List Cmd
  | [], p, cs => (p, cs)
  | e :: w, p, cs =>
    if e.2.bodyHandle = none then
      match bodyDescFor e.2 with
      | some body =>
        make_body_handles_fold w
          { p with
              bodies := fun k => if k = p.nextBody then some body else p.bodies k,
              nextBody := p.nextBody + 1 }
          (cs ++ [Cmd.addBodyHandle e.1 p.nextBody])
      | none => make_body_handles_fold w p cs
    else make_body_handles_fold w p cs

/-- The `make_body_handles` system. -/
def make_body_handles (s : State) : State :=
  let r := make_body_handles_fold s.world s.phys s.cmds
  { s with phys := r.1, cmds := r.2 }

/-- Iteration of `remove_body_handles` over the entities: for every entity
with a `BodyHandle` but no body-kind tag, remove the body from the arena and
stage a `remove_component` of the handle. -/
def remove_body_handles_fold :
    List (ℕ × EntityComps) → PhysicsResource → List Cmd → PhysicsResource × List Cmd
  | [], p, cs => (p, cs)
  | e :: w, p, cs =>
    if hasBodyTag e.2 = false then
      match e.2.bodyHandle with
      | some h =>
        remove_body_handles_fold w
          { p with bodies := fun k => if k = h then none else p.bodies k }
          (cs ++ [Cmd.removeBodyHandle e.1])
      | none => remove_body_handles_fold w p cs
    else remove_body_handles_fold w p cs

/-- The `remove_body_handles` system. -/
def remove_body_handles (s : State) : State :=
  let r := remove_body_handles_fold s.world s.phys s.cmds
  { s with phys := r.1, cmds := r.2 }

/-- Application of one staged command to the components of entity `i`. -/
def applyCmdComp : Cmd → ℕ → EntityComps → EntityComps
  | .addBodyHandle j h, i, c =>
    if j = i then { c with bodyHandle := some h, bodyHandleChanged := true } else c
  | .removeBodyHandle j, i, c =>
    if j = i then { c with bodyHandle := none } else c
  | .addColliderHandle j h, i, c =>
    if j = i then { c with colliderHandle := some h } else c
  | .removeColliderHandle j, i, c =>
    if j = i then { c with colliderHandle := none } else c

/-- Application of a list of staged commands, in order, to the components of
entity `i`. -/
def applyAll : List Cmd → ℕ → EntityComps → EntityComps
  | [], _, c => c
  | cmd :: cmds, i, c => applyAll cmds i (applyCmdComp cmd i c)

/-- The `flush_command_buffer` system: apply every staged command, in staging
order, to the world (commands address entities by id, so the flush acts on
each entity independently). -/
def flush_command_buffer (s : State) : State :=
  { s with
      world := s.world.map (fun e => (e.1, applyAll s.cmds e.1 e.2)),
      cmds := [] }

/-- The collider shape built by `make_collider_handles`, following the
if-chain of the source: `CircleCollider` gives `Ball::new(radius)`,
`SquareCollider` gives `Cuboid::new` of half the side length in each axis. -/
def shapeFor (c : EntityComps) : Option Shape :=
  match c.circleCollider with
  | some r => some (.ball r)
  | none =>
    match c.squareCollider with
    | some s => some (.cuboid (s / 2) (s / 2))
    | none => none

/-- Iteration of `make_collider_handles`: for every entity with a
collider-shape tag, a `BodyHandle` (a required system parameter) and no
`ColliderHandle`, insert a collider attached to the body handle and stage an
`add_component` of the returned handle. -/
def make_collider_handles_fold :
    List (ℕ × EntityComps) → PhysicsResource → List Cmd → PhysicsResource × List Cmd
  | [], p, cs => (p, cs)
  | e :: w, p, cs =>
    if e.2.colliderHandle = none then
      match shapeFor e.2, e.2.bodyHandle with
      | some sh, some bh =>
        make_collider_handles_fold w
          { p with
              colliders := fun k =>
                if k = p.nextCollider then some ⟨sh, bh⟩ else p.colliders k,
              nextCollider := p.nextCollider + 1 }
          (cs ++ [Cmd.addColliderHandle e.1 p.nextCollider])
      | _, _ => make_collider_handles_fold w p cs
    else make_collider_handles_fold w p cs

/-- The `make_collider_handles` system. -/
def make_collider_handles (s : State) : State :=
  let r := make_collider_handles_fold s.world s.phys s.cmds
  { s with phys := r.1, cmds := r.2 }

/-- Iteration of `remove_collider_handles`: for every entity with a
`ColliderHandle` but no collider-shape tag, remove the collider from the
arena and stage a `remove_component` of the handle. -/
def remove_collider_handles_fold :
    List (ℕ × EntityComps) → PhysicsResource → List Cmd → PhysicsResource × List Cmd
  | [], p, cs => (p, cs)
  | e :: w, p, cs =>
    if hasShapeTag e.2 = false then
      match e.2.colliderHandle with
      | some h =>
        remove_collider_handles_fold w
          { p with colliders := fun k => if k = h then none else p.colliders k }
          (cs ++ [Cmd.removeColliderHandle e.1])
      | none => remove_collider_handles_fold w p cs
    else remove_collider_handles_fold w p cs

/-- The `remove_collider_handles` system. -/
def remove_collider_handles (s : State) : State :=
  let r := remove_collider_handles_fold s.world s.phys s.cmds
  { s with phys := r.1, cmds := r.2 }

/-- Modelled from the spec: the `garbage_system` registered by
`add_physics_systems` is not among the given source files; the spec describes
it as a defensive sweep in which any backend handle with no owning entity is
released.  It touches only the backend arenas, not the component world. -/
def garbage (s : State) : State :=
  { s with
      phys := { s.phys with
        bodies := fun h =>
          if s.world.any (fun e => e.2.bodyHandle = some h) then s.phys.bodies h
          else none,
        colliders := fun h =>
          if s.world.any (fun e => e.2.colliderHandle = some h) then s.phys.colliders h
          else none } }

/-- One entity step of `entity_world_to_physics_world`: for an entity with
`BodyHandle`, `Position`, `Velocity`, `Orientation` (required query
components) and the `DynamicBody` filter, write position, orientation
(converted to radians) and linear velocity into the backend body, skipping
silently when the handle does not resolve to a rigid body. -/
def pushStep (p : PhysicsResource) (e : ℕ × EntityComps) : PhysicsResource :=
  match e.2.dynamicBody, e.2.bodyHandle, e.2.position, e.2.velocity, e.2.orientation with
  | some _, some h, some pos, some vel, some ori =>
    match p.bodies h with
    | some body =>
      { p with
          bodies := fun k =>
            if k = h then
              some { body with position := pos, rotation := ori.degToRad, linvel := vel }
            else p.bodies k }
    | none => p
  | _, _, _, _, _ => p

/-- The `entity_world_to_physics_world` system. -/
def entity_world_to_physics_world (s : State) : State :=
  { s with phys := s.world.foldl pushStep s.phys }

/-- The `step_physics_world` system.  The nphysics2d solver itself is out of
scope (an external collaborator), so the effect of `step` on the backend is a
parameter. -/
def step_physics_world (stepFn : PhysicsResource → PhysicsResource) (s : State) : State :=
  { s with phys := stepFn s.phys }

/-- One entity step of `physics_world_to_entity_world`: under the
`component::<DynamicBody>() & maybe_changed::<BodyHandle>()` filter, and when
the handle resolves to a rigid body, overwrite whichever of `Position`,
`Velocity`, `Orientation` are present (they are `TryWrite` components) with
the backend position, linear velocity and rotation (converted to degrees);
afterwards the change tracking for `BodyHandle` is caught up, modelled by
clearing the flag. -/
def pullComp (p : PhysicsResource) (c : EntityComps) : EntityComps :=
  match c.dynamicBody, c.bodyHandle, c.bodyHandleChanged with
  | some _, some h, true =>
    match p.bodies h with
    | some bod =>
      { c with
          position := c.position.map (fun _ => bod.position),
          velocity := c.velocity.map (fun _ => bod.linvel),
          orientation := c.orientation.map (fun _ => bod.rotation.radToDeg),
          bodyHandleChanged := false }
    | none => { c with bodyHandleChanged := false }
  | _, _, _ => { c with bodyHandleChanged := false }

/-- The `physics_world_to_entity_world` system. -/
def physics_world_to_entity_world (s : State) : State :=
  { s with world := s.world.map (fun e => (e.1, pullComp s.phys e.2)) }

/-- One tick of the pipeline exactly as `add_physics_systems` registers it:
validate, body handle lifecycle, barrier, collider handle lifecycle, barrier,
garbage sweep, push, step, pull.  The `movement` system is not registered
(its registration is commented out in the source).  A validation panic aborts
the tick. -/
def tick (stepFn : PhysicsResource → PhysicsResource) (s : State) : Except String State :=
  match validate_physics_entities s.world with
  | .error msg => .error msg
  | .ok _ =>
    .ok (physics_world_to_entity_world
      (step_physics_world stepFn
        (entity_world_to_physics_world
          (garbage
            (flush_command_buffer
              (remove_collider_handles
                (make_collider_handles
                  (flush_command_buffer
                    (remove_body_handles
                      (make_body_handles s))))))))))

/-- `n` consecutive ticks. -/
def ticks (stepFn : PhysicsResource → PhysicsResource) :
    ℕ → State → Except String State
  | 0, s => .ok s
  | n + 1, s => (tick stepFn s).bind (ticks stepFn n)

/-- The body handle lifecycle stage of one tick: creation pass, removal pass,
barrier. -/
def bodyHandleStage (s : State) : State :=
  flush_command_buffer (remove_body_handles (make_body_handles s))

/-- The body handle creation pass together with the following barrier that
commits its staged component additions. -/
def bodyCreatePass (s : State) : State :=
  flush_command_buffer (make_body_handles s)

/-- The collider handle lifecycle stage of one tick: creation pass, removal
pass, barrier. -/
def colliderHandleStage (s : State) : State :=
  flush_command_buffer (remove_collider_handles (make_collider_handles s))

/-! Definitions following the wording of the spec, for comparison with the
behaviour of the embedded code. -/

/-- Invariant 1 of the spec, as a per-entity check: an entity with
`DynamicBody` has `Position`, `Velocity`, `Orientation` and has neither
`StaticBody` nor `DisabledBody`. -/
def spec_invariant1 (c : EntityComps) : Bool :=
  !c.dynamicBody.isSome ||
    (c.position.isSome && c.velocity.isSome && c.orientation.isSome &&
      !c.staticBody.isSome && !c.disabledBody.isSome)

/-- Invariant 3 of the spec, as a per-entity check: `ColliderHandle`
existence implies `BodyHandle` existence. -/
def spec_invariant3 (c : EntityComps) : Bool :=
  !c.colliderHandle.isSome || c.bodyHandle.isSome

/-- The `DynamicBody` conditions that `validate_physics_entities` actually
checks for an entity (note: no `DisabledBody` check). -/
def dynOk (c : EntityComps) : Bool :=
  !c.dynamicBody.isSome ||
    (c.position.isSome && c.velocity.isSome && c.orientation.isSome &&
      !c.staticBody.isSome)

/-- The `StaticBody` conditions that `validate_physics_entities` actually
checks for an entity. -/
def statOk (c : EntityComps) : Bool :=
  !c.staticBody.isSome ||
    (c.position.isSome && !c.velocity.isSome && !c.speed.isSome &&
      !c.acceleration.isSome && !c.force.isSome)

/-! Concrete inputs used by witnesses and counterexamples. -/

/-- An empty backend. -/
def emptyPhys : PhysicsResource where
  bodies := fun _ => none
  nextBody := 0
  colliders := fun _ => none
  nextCollider := 0

/-- Witness input for the pull-back: a dynamic entity whose handle was
written this tick and resolves to a backend body. -/
def pullWitState : State where
  world := [(0,
    { dynamicBody := some ⟨2⟩, position := some ⟨.fin 5, .fin 5⟩,
      velocity := some Vec2.zero, orientation := some (.fin 0),
      bodyHandle := some 0, bodyHandleChanged := true })]
  phys :=
    { bodies := fun k =>
        if k = 0 then
          some { rigidBodyDescNew with
                  position := ⟨.fin 3, .fin 4⟩, linvel := ⟨.fin 1, .fin 0⟩ }
        else none,
      nextBody := 1, colliders := fun _ => none, nextCollider := 0 }
  cmds := []

/-- Counterexample input for invariant 3: an entity that kept its
collider-shape tag but lost its body-kind tag, entering the tick with both
handles. -/
def inv3CexState : State where
  world := [(1,
    { circleCollider := some 1, colliderHandle := some 0, bodyHandle := some 0 })]
  phys :=
    { bodies := fun k =>
        if k = 0 then some { rigidBodyDescNew with status := .Static } else none,
      nextBody := 1,
      colliders := fun k => if k = 0 then some ⟨.ball 1, 0⟩ else none,
      nextCollider := 1 }
  cmds := []

/-- Witness input for the amended invariant 3: a static entity with a shape
tag and no handles yet. -/
def inv3WitState : State where
  world := [(0,
    { staticBody := some (), position := some Vec2.zero, circleCollider := some 1 })]
  phys := emptyPhys
  cmds := []

/-- Counterexample input for the shape-switch scenario: an entity that
switched from `CircleCollider` (radius 1) to `SquareCollider` (side 2) before
the tick, still holding the collider handle of the circle. -/
def switchCexState : State where
  world := [(0,
    { staticBody := some (), position := some Vec2.zero,
      squareCollider := some 2, colliderHandle := some 0, bodyHandle := some 0 })]
  phys :=
    { bodies := fun k =>
        if k = 0 then some { rigidBodyDescNew with status := .Static } else none,
      nextBody := 1,
      colliders := fun k => if k = 0 then some ⟨.ball 1, 0⟩ else none,
      nextCollider := 1 }
  cmds := []

/-- Witness input for the amended shape-switch claim (stage level). -/
def switchWitState : State where
  world := [(0,
    { squareCollider := some 2, colliderHandle := some 0, bodyHandle := some 0 })]
  phys :=
    { bodies := fun k =>
        if k = 0 then some { rigidBodyDescNew with status := .Static } else none,
      nextBody := 1,
      colliders := fun k => if k = 0 then some ⟨.ball 1, 0⟩ else none,
      nextCollider := 1 }
  cmds := []

/-- Counterexample input for the validator: an entity carrying both
`DynamicBody` and `DisabledBody` (violating invariant 1) that nevertheless
passes validation. -/
def validatorCexComps : EntityComps :=
  { dynamicBody := some ⟨1⟩, disabledBody := some (),
    position := some Vec2.zero, velocity := some Vec2.zero,
    orientation := some (.fin 0) }

/-- Witness input for the amended validator claim: a static entity carrying a
`Velocity` component. -/
def validatorWitWorld : World :=
  [(0, { staticBody := some (), position := some Vec2.zero,
         velocity := some Vec2.zero })]

/-- A backend step in which the solver diverges: the velocity of body 0
becomes non-finite. -/
def nanStep : PhysicsResource → PhysicsResource := fun p =>
  { p with
      bodies := fun k =>
        if k = 0 then (p.bodies 0).map (fun b => { b with linvel := ⟨.nan, .fin 0⟩ })
        else p.bodies k }

/-- Counterexample input for the non-finite clamp claim: a fresh dynamic
entity; its body is created this tick and the step makes its velocity
non-finite. -/
def nanCexState : State where
  world := [(0,
    { dynamicBody := some ⟨1⟩, position := some Vec2.zero,
      velocity := some Vec2.zero, orientation := some (.fin 0) })]
  phys := emptyPhys
  cmds := []

/-- Witness input for the amended non-finite claim (pull stage level). -/
def nanWitState : State where
  world := [(0,
    { dynamicBody := some ⟨1⟩, position := some Vec2.zero,
      velocity := some Vec2.zero, orientation := some (.fin 0),
      bodyHandle := some 0, bodyHandleChanged := true })]
  phys :=
    { bodies := fun k =>
        if k = 0 then
          some { rigidBodyDescNew with linvel := ⟨.inf, .fin 0⟩ }
        else none,
      nextBody := 1, colliders := fun _ => none, nextCollider := 0 }
  cmds := []

/-- Witness input for idempotence of the creation pass. -/
def idemWitState : State where
  world := [(0,
    { dynamicBody := some ⟨1⟩, position := some Vec2.zero,
      velocity := some Vec2.zero, orientation := some (.fin 0) })]
  phys := emptyPhys
  cmds := []

/-- Witness input for the tag and handle round trip: entity 0 has just been
given a body-kind tag, entity 1 has just lost its tag while holding a
handle. -/
def roundtripWitState : State where
  world := [(0, { staticBody := some (), position := some Vec2.zero }),
            (1, { bodyHandle := some 0 })]
  phys :=
    { bodies := fun k =>
        if k = 0 then some { rigidBodyDescNew with status := .Static } else none,
      nextBody := 1, colliders := fun _ => none, nextCollider := 0 }
  cmds := []

/-- Witness input for the descriptor claim: a fresh dynamic entity of
mass 2. -/
def descWitState : State where
  world := [(0,
    { dynamicBody := some ⟨2⟩, position := some Vec2.zero,
      velocity := some Vec2.zero, orientation := some (.fin 0) })]
  phys := emptyPhys
  cmds := []

/-- Witness input for static preservation over ticks. -/
def staticWitState : State where
  world := [(0, { staticBody := some (), position := some ⟨.fin 1, .fin 2⟩ })]
  phys := emptyPhys
  cmds := []

/-- A backend step in which the solver moves body 0: its velocity becomes
(9, 9). -/
def moveStep : PhysicsResource → PhysicsResource := fun p =>
  { p with
      bodies := fun k =>
        if k = 0 then (p.bodies 0).map (fun b => { b with linvel := ⟨.fin 9, .fin 9⟩ })
        else p.bodies k }

/-- Counterexample input for the pull-back claim: a dynamic entity whose
handle was created in an earlier tick (its change tracking is caught up), so
the `maybe_changed::<BodyHandle>` filter rejects it even though the backend
step changes its body. -/
def pullMissCexState : State where
  world := [(0,
    { dynamicBody := some ⟨1⟩, position := some Vec2.zero,
      velocity := some Vec2.zero, orientation := some (.fin 0),
      bodyHandle := some 0, bodyHandleChanged := false })]
  phys :=
    { bodies := fun k => if k = 0 then some rigidBodyDescNew else none,
      nextBody := 1, colliders := fun _ => none, nextCollider := 0 }
  cmds := []

/-- Witness input for the stale-handle claim: components of a dynamic entity
whose handle, 7, is not in the (empty) backend. -/
def staleWitComps : EntityComps :=
  { dynamicBody := some ⟨1⟩, position := some Vec2.zero,
    velocity := some Vec2.zero, orientation := some (.fin 0),
    bodyHandle := some 7, bodyHandleChanged := true }

/-! Basic lemmas: entity lookup, command application, and the fields each
piece of the pipeline leaves untouched. -/

theorem findEnt_map (w : World) (i : ℕ) (f : ℕ → EntityComps → EntityComps) :
    findEnt (w.map (fun e => (e.1, f e.1 e.2))) i = (findEnt w i).map (f i) := by
  induction w with
  | nil => rfl
  | cons e w ih =>
    by_cases h : e.1 = i
    · unfold findEnt
      rw [List.map_cons, List.find?_cons_of_pos _ (by simpa using h),
        List.find?_cons_of_pos _ (by simpa using h)]
      simp [h]
    · unfold findEnt at ih ⊢
      rw [List.map_cons, List.find?_cons_of_neg _ (by simpa using h),
        List.find?_cons_of_neg _ (by simpa using h)]
      exact ih

theorem findEnt_mem {w : World} {i : ℕ} {c : EntityComps}
    (h : findEnt w i = some c) : (i, c) ∈ w := by
  induction w with
  | nil => simp [findEnt] at h
  | cons e w ih =>
    by_cases hei : e.1 = i
    · unfold findEnt at h
      rw [List.find?_cons_of_pos _ (by simpa using hei)] at h
      simp at h
      refine List.mem_cons.mpr (Or.inl ?_)
      cases e
      simp_all
    · unfold findEnt at h
      rw [List.find?_cons_of_neg _ (by simpa using hei)] at h
      exact List.mem_cons.mpr (Or.inr (ih h))

theorem findEnt_of_mem {w : World} {i : ℕ} {x : EntityComps}
    (hN : WFIds w) (hm : (i, x) ∈ w) : findEnt w i = some x := by
  induction w with
  | nil => simp at hm
  | cons e w ih =>
    unfold WFIds at hN
    rw [List.map_cons, List.nodup_cons] at hN
    rcases List.mem_cons.mp hm with he | ht
    · unfold findEnt
      rw [List.find?_cons_of_pos _ (by rw [← he]; simp)]
      rw [← he]
      rfl
    · have hei : e.1 ≠ i := by
        intro hcon
        exact hN.1 (by rw [hcon]; exact List.mem_map_of_mem Prod.fst ht)
      unfold findEnt
      rw [List.find?_cons_of_neg _ (by simpa using hei)]
      exact ih hN.2 ht

theorem applyCmdComp_core (cmd : Cmd) (i : ℕ) (c : EntityComps) :
    (applyCmdComp cmd i c).position = c.position ∧
    (applyCmdComp cmd i c).velocity = c.velocity ∧
    (applyCmdComp cmd i c).orientation = c.orientation ∧
    (applyCmdComp cmd i c).dynamicBody = c.dynamicBody ∧
    (applyCmdComp cmd i c).staticBody = c.staticBody ∧
    (applyCmdComp cmd i c).disabledBody = c.disabledBody ∧
    (applyCmdComp cmd i c).circleCollider = c.circleCollider ∧
    (applyCmdComp cmd i c).squareCollider = c.squareCollider := by
  cases cmd <;> simp only [applyCmdComp] <;> split <;> simp

theorem applyAll_core (cmds : List Cmd) (i : ℕ) (c : EntityComps) :
    (applyAll cmds i c).position = c.position ∧
    (applyAll cmds i c).velocity = c.velocity ∧
    (applyAll cmds i c).orientation = c.orientation ∧
    (applyAll cmds i c).dynamicBody = c.dynamicBody ∧
    (applyAll cmds i c).staticBody = c.staticBody ∧
    (applyAll cmds i c).disabledBody = c.disabledBody ∧
    (applyAll cmds i c).circleCollider = c.circleCollider ∧
    (applyAll cmds i c).squareCollider = c.squareCollider := by
  induction cmds generalizing c with
  | nil => simp [applyAll]
  | cons cmd cmds ih =>
    have h1 := applyCmdComp_core cmd i c
    have h2 := ih (applyCmdComp cmd i c)
    simp only [applyAll]
    exact ⟨h2.1.trans h1.1, h2.2.1.trans h1.2.1, h2.2.2.1.trans h1.2.2.1,
      h2.2.2.2.1.trans h1.2.2.2.1, h2.2.2.2.2.1.trans h1.2.2.2.2.1,
      h2.2.2.2.2.2.1.trans h1.2.2.2.2.2.1,
      h2.2.2.2.2.2.2.1.trans h1.2.2.2.2.2.2.1,
      h2.2.2.2.2.2.2.2.trans h1.2.2.2.2.2.2.2⟩

theorem applyCmdComp_ne (cmd : Cmd) (i : ℕ) (c : EntityComps)
    (h : cmd.entOf ≠ i) : applyCmdComp cmd i c = c := by
  cases cmd <;> simp_all [applyCmdComp, Cmd.entOf]

theorem applyAll_filter (cmds : List Cmd) (i : ℕ) (c : EntityComps) :
    applyAll cmds i c = applyAll (cmds.filter (fun cmd => cmd.entOf == i)) i c := by
  induction cmds generalizing c with
  | nil => rfl
  | cons cmd cmds ih =>
    by_cases h : cmd.entOf = i
    · rw [List.filter_cons_of_pos (by simpa using h)]
      simp only [applyAll]
      exact ih _
    · rw [List.filter_cons_of_neg (by simpa using h)]
      simp only [applyAll]
      rw [applyCmdComp_ne cmd i c h]
      exact ih c

theorem pullComp_pres (p : PhysicsResource) (c : EntityComps) :
    (pullComp p c).bodyHandle = c.bodyHandle ∧
    (pullComp p c).colliderHandle = c.colliderHandle ∧
    (pullComp p c).dynamicBody = c.dynamicBody ∧
    (pullComp p c).staticBody = c.staticBody ∧
    (pullComp p c).disabledBody = c.disabledBody ∧
    (pullComp p c).circleCollider = c.circleCollider ∧
    (pullComp p c).squareCollider = c.squareCollider := by
  unfold pullComp
  split
  · split <;> simp
  · simp

theorem pullComp_nondyn (p : PhysicsResource) (c : EntityComps)
    (h : c.dynamicBody = none) :
    pullComp p c = { c with bodyHandleChanged := false } := by
  simp only [pullComp]
  rw [h]

/-! The parts of the state each stage leaves untouched. -/

theorem make_body_handles_world (s : State) :
    (make_body_handles s).world = s.world := rfl

theorem remove_body_handles_world (s : State) :
    (remove_body_handles s).world = s.world := rfl

theorem make_collider_handles_world (s : State) :
    (make_collider_handles s).world = s.world := rfl

theorem remove_collider_handles_world (s : State) :
    (remove_collider_handles s).world = s.world := rfl

theorem flush_command_buffer_phys (s : State) :
    (flush_command_buffer s).phys = s.phys := rfl

theorem garbage_world (s : State) : (garbage s).world = s.world := rfl

theorem entity_world_to_physics_world_world (s : State) :
    (entity_world_to_physics_world s).world = s.world := rfl

theorem step_physics_world_world (f : PhysicsResource → PhysicsResource)
    (s : State) : (step_physics_world f s).world = s.world := rfl

theorem physics_world_to_entity_world_phys (s : State) :
    (physics_world_to_entity_world s).phys = s.phys := rfl

theorem findEnt_cons_self {e : ℕ × EntityComps} {w : World} {i : ℕ}
    (h : e.1 = i) : findEnt (e :: w) i = some e.2 := by
  unfold findEnt
  rw [List.find?_cons_of_pos _ (by simpa using h)]
  rfl

theorem findEnt_cons_ne {e : ℕ × EntityComps} {w : World} {i : ℕ}
    (h : e.1 ≠ i) : findEnt (e :: w) i = findEnt w i := by
  unfold findEnt
  rw [List.find?_cons_of_neg _ (by simpa using h)]

/-! Lemmas about the `make_body_handles` iteration. -/

theorem mb_step_match (e : ℕ × EntityComps) (w : World) (p : PhysicsResource)
    (cs : List Cmd) (hb : e.2.bodyHandle = none) {b : RigidBody}
    (hd : bodyDescFor e.2 = some b) :
    make_body_handles_fold (e :: w) p cs =
      make_body_handles_fold w
        { p with
            bodies := fun k => if k = p.nextBody then some b else p.bodies k,
            nextBody := p.nextBody + 1 }
        (cs ++ [Cmd.addBodyHandle e.1 p.nextBody]) := by
  rw [make_body_handles_fold, if_pos hb, hd]

theorem mb_step_nomatch (e : ℕ × EntityComps) (w : World) (p : PhysicsResource)
    (cs : List Cmd) (hno : ¬ e.2.bodyHandle = none ∨ bodyDescFor e.2 = none) :
    make_body_handles_fold (e :: w) p cs = make_body_handles_fold w p cs := by
  rcases hno with hno | hno
  · rw [make_body_handles_fold, if_neg hno]
  · by_cases hb : e.2.bodyHandle = none
    · rw [make_body_handles_fold, if_pos hb, hno]
    · rw [make_body_handles_fold, if_neg hb]

theorem mb_nextBody_le (w : World) (p : PhysicsResource) (cs : List Cmd) :
    p.nextBody ≤ (make_body_handles_fold w p cs).1.nextBody := by
  induction w generalizing p cs with
  | nil => exact Nat.le_refl _
  | cons e w ih =>
    by_cases hb : e.2.bodyHandle = none
    · cases hd : bodyDescFor e.2 with
      | some b =>
        rw [mb_step_match e w p cs hb hd]
        refine Nat.le_trans (Nat.le_succ p.nextBody) ?_
        exact ih
          { p with
              bodies := fun k => if k = p.nextBody then some b else p.bodies k,
              nextBody := p.nextBody + 1 }
          (cs ++ [Cmd.addBodyHandle e.1 p.nextBody])
      | none =>
        rw [mb_step_nomatch e w p cs (Or.inr hd)]
        exact ih p cs
    · rw [mb_step_nomatch e w p cs (Or.inl hb)]
      exact ih p cs

theorem mb_bodies_lt (w : World) (p : PhysicsResource) (cs : List Cmd)
    (k : ℕ) (hk : k < p.nextBody) :
    (make_body_handles_fold w p cs).1.bodies k = p.bodies k := by
  induction w generalizing p cs with
  | nil => rfl
  | cons e w ih =>
    by_cases hb : e.2.bodyHandle = none
    · cases hd : bodyDescFor e.2 with
      | some b =>
        rw [mb_step_match e w p cs hb hd]
        rw [ih _ _ (Nat.lt_succ_of_lt hk)]
        exact if_neg (Nat.ne_of_lt hk)
      | none =>
        rw [mb_step_nomatch e w p cs (Or.inr hd)]
        exact ih p cs hk
    · rw [mb_step_nomatch e w p cs (Or.inl hb)]
      exact ih p cs hk

theorem mb_colliders (w : World) (p : PhysicsResource) (cs : List Cmd) :
    (make_body_handles_fold w p cs).1.colliders = p.colliders ∧
    (make_body_handles_fold w p cs).1.nextCollider = p.nextCollider := by
  induction w generalizing p cs with
  | nil => exact ⟨rfl, rfl⟩
  | cons e w ih =>
    simp only [make_body_handles_fold]
    split
    · split
      · exact ih _ _
      · exact ih p cs
    · exact ih p cs

theorem mb_cmds_adds (w : World) (p : PhysicsResource) (cs : List Cmd) :
    ∃ t, (make_body_handles_fold w p cs).2 = cs ++ t ∧
      ∀ cmd ∈ t, ∃ j h, cmd = Cmd.addBodyHandle j h := by
  induction w generalizing p cs with
  | nil => exact ⟨[], (List.append_nil cs).symm, by simp⟩
  | cons e w ih =>
    by_cases hb : e.2.bodyHandle = none
    · cases hd : bodyDescFor e.2 with
      | some b =>
        rw [mb_step_match e w p cs hb hd]
        obtain ⟨t, ht, hall⟩ := ih
          { p with
              bodies := fun k => if k = p.nextBody then some b else p.bodies k,
              nextBody := p.nextBody + 1 }
          (cs ++ [Cmd.addBodyHandle e.1 p.nextBody])
        refine ⟨Cmd.addBodyHandle e.1 p.nextBody :: t, ?_, ?_⟩
        · rw [ht, List.append_assoc]
          rfl
        · intro cmd hc
          rcases List.mem_cons.mp hc with h | h
          · exact ⟨e.1, p.nextBody, h⟩
          · exact hall cmd h
      | none =>
        rw [mb_step_nomatch e w p cs (Or.inr hd)]
        exact ih p cs
    · rw [mb_step_nomatch e w p cs (Or.inl hb)]
      exact ih p cs

theorem mb_covers (w : World) (p : PhysicsResource) (cs : List Cmd)
    {i : ℕ} {c : EntityComps} (hm : (i, c) ∈ w) (hnone : c.bodyHandle = none)
    {b : RigidBody} (hd : bodyDescFor c = some b) :
    ∃ h, Cmd.addBodyHandle i h ∈ (make_body_handles_fold w p cs).2 := by
  induction w generalizing p cs with
  | nil => simp at hm
  | cons e w ih =>
    rcases List.mem_cons.mp hm with he | ht
    · have hb : e.2.bodyHandle = none := by rw [← he]; exact hnone
      have hde : bodyDescFor e.2 = some b := by rw [← he]; exact hd
      rw [mb_step_match e w p cs hb hde]
      obtain ⟨t, htt, _⟩ :=
        mb_cmds_adds w _ (cs ++ [Cmd.addBodyHandle e.1 p.nextBody])
      refine ⟨p.nextBody, ?_⟩
      rw [htt]
      have he1 : e.1 = i := by rw [← he]
      rw [← he1]
      exact List.mem_append_left _ (List.mem_append_right _ (by simp))
    · by_cases hb : e.2.bodyHandle = none
      · cases hde : bodyDescFor e.2 with
        | some b2 =>
          rw [mb_step_match e w p cs hb hde]
          exact ih _ _ ht
        | none =>
          rw [mb_step_nomatch e w p cs (Or.inr hde)]
          exact ih _ _ ht
      · rw [mb_step_nomatch e w p cs (Or.inl hb)]
        exact ih _ _ ht

theorem mb_filter_skip (w : World) (p : PhysicsResource) (cs : List Cmd)
    (i : ℕ) (hni : i ∉ w.map Prod.fst) :
    ((make_body_handles_fold w p cs).2).filter (fun cmd => cmd.entOf == i) =
      cs.filter (fun cmd => cmd.entOf == i) := by
  induction w generalizing p cs with
  | nil => rfl
  | cons e w ih =>
    rw [List.map_cons] at hni
    have h1 : e.1 ≠ i := fun hc => hni (by rw [← hc]; exact List.mem_cons_self _ _)
    have h2 : i ∉ w.map Prod.fst := fun hc => hni (List.mem_cons_of_mem _ hc)
    by_cases hb : e.2.bodyHandle = none
    · cases hd : bodyDescFor e.2 with
      | some b =>
        rw [mb_step_match e w p cs hb hd, ih _ _ h2, List.filter_append]
        simp [Cmd.entOf, h1]
      | none =>
        rw [mb_step_nomatch e w p cs (Or.inr hd)]
        exact ih _ _ h2
    · rw [mb_step_nomatch e w p cs (Or.inl hb)]
      exact ih _ _ h2

theorem mb_filter_nomatch (w : World) (p : PhysicsResource) (cs : List Cmd)
    {i : ℕ} {c : EntityComps} (hN : WFIds w) (hfind : findEnt w i = some c)
    (hno : ¬ c.bodyHandle = none ∨ bodyDescFor c = none) :
    ((make_body_handles_fold w p cs).2).filter (fun cmd => cmd.entOf == i) =
      cs.filter (fun cmd => cmd.entOf == i) := by
  induction w generalizing p cs with
  | nil => simp [findEnt] at hfind
  | cons e w ih =>
    rw [WFIds, List.map_cons, List.nodup_cons] at hN
    by_cases hei : e.1 = i
    · have hc : e.2 = c := by
        rw [findEnt_cons_self hei] at hfind
        injection hfind
      have hni : i ∉ w.map Prod.fst := by rw [← hei]; exact hN.1
      rw [mb_step_nomatch e w p cs (by rw [hc]; exact hno)]
      exact mb_filter_skip w p cs i hni
    · rw [findEnt_cons_ne hei] at hfind
      by_cases hb : e.2.bodyHandle = none
      · cases hd : bodyDescFor e.2 with
        | some b =>
          rw [mb_step_match e w p cs hb hd, ih _ _ hN.2 hfind, List.filter_append]
          simp [Cmd.entOf, hei]
        | none =>
          rw [mb_step_nomatch e w p cs (Or.inr hd)]
          exact ih _ _ hN.2 hfind
      · rw [mb_step_nomatch e w p cs (Or.inl hb)]
        exact ih _ _ hN.2 hfind

theorem mb_filter_match (w : World) (p : PhysicsResource) (cs : List Cmd)
    {i : ℕ} {c : EntityComps} (hN : WFIds w) (hfind : findEnt w i = some c)
    (hnone : c.bodyHandle = none) {b : RigidBody} (hd : bodyDescFor c = some b) :
    ∃ h, ((make_body_handles_fold w p cs).2).filter (fun cmd => cmd.entOf == i) =
        cs.filter (fun cmd => cmd.entOf == i) ++ [Cmd.addBodyHandle i h] ∧
      (make_body_handles_fold w p cs).1.bodies h = some b ∧
      p.nextBody ≤ h := by
  induction w generalizing p cs with
  | nil => simp [findEnt] at hfind
  | cons e w ih =>
    rw [WFIds, List.map_cons, List.nodup_cons] at hN
    by_cases hei : e.1 = i
    · have hc : e.2 = c := by
        rw [findEnt_cons_self hei] at hfind
        injection hfind
      have hni : i ∉ w.map Prod.fst := by rw [← hei]; exact hN.1
      rw [mb_step_match e w p cs (by rw [hc]; exact hnone) (by rw [hc]; exact hd)]
      refine ⟨p.nextBody, ?_, ?_, Nat.le_refl _⟩
      · rw [mb_filter_skip w _ _ i hni, List.filter_append, hei]
        simp [Cmd.entOf]
      · rw [mb_bodies_lt _ _ _ _ (Nat.lt_succ_self p.nextBody)]
        exact if_pos rfl
    · rw [findEnt_cons_ne hei] at hfind
      by_cases hb : e.2.bodyHandle = none
      · cases hd2 : bodyDescFor e.2 with
        | some b2 =>
          rw [mb_step_match e w p cs hb hd2]
          obtain ⟨h, hfil, hbod, hle⟩ := ih _ _ hN.2 hfind
          refine ⟨h, ?_, hbod, Nat.le_trans (Nat.le_succ _) hle⟩
          rw [hfil, List.filter_append]
          simp [Cmd.entOf, hei]
        | none =>
          rw [mb_step_nomatch e w p cs (Or.inr hd2)]
          exact ih _ _ hN.2 hfind
      · rw [mb_step_nomatch e w p cs (Or.inl hb)]
        exact ih _ _ hN.2 hfind

theorem mb_noop (w : World) (p : PhysicsResource) (cs : List Cmd)
    (h : ∀ e ∈ w, e.2.bodyHandle = none → bodyDescFor e.2 = none) :
    make_body_handles_fold w p cs = (p, cs) := by
  induction w generalizing p cs with
  | nil => rfl
  | cons e w ih =>
    have hrest : ∀ x ∈ w, x.2.bodyHandle = none → bodyDescFor x.2 = none :=
      fun x hx => h x (List.mem_cons_of_mem e hx)
    by_cases hb : e.2.bodyHandle = none
    · rw [mb_step_nomatch e w p cs (Or.inr (h e (List.mem_cons_self e w) hb))]
      exact ih _ _ hrest
    · rw [mb_step_nomatch e w p cs (Or.inl hb)]
      exact ih _ _ hrest

/-! Lemmas about the `remove_body_handles` iteration. -/

theorem rb_step_match (e : ℕ × EntityComps) (w : World) (p : PhysicsResource)
    (cs : List Cmd) (hnt : hasBodyTag e.2 = false) {h : ℕ}
    (hh : e.2.bodyHandle = some h) :
    remove_body_handles_fold (e :: w) p cs =
      remove_body_handles_fold w
        { p with bodies := fun k => if k = h then none else p.bodies k }
        (cs ++ [Cmd.removeBodyHandle e.1]) := by
  rw [remove_body_handles_fold, if_pos hnt, hh]

theorem rb_step_nomatch (e : ℕ × EntityComps) (w : World) (p : PhysicsResource)
    (cs : List Cmd) (hno : ¬ hasBodyTag e.2 = false ∨ e.2.bodyHandle = none) :
    remove_body_handles_fold (e :: w) p cs = remove_body_handles_fold w p cs := by
  rcases hno with hno | hno
  · rw [remove_body_handles_fold, if_neg hno]
  · by_cases ht : hasBodyTag e.2 = false
    · rw [remove_body_handles_fold, if_pos ht, hno]
    · rw [remove_body_handles_fold, if_neg ht]

theorem rb_phys_rest (w : World) (p : PhysicsResource) (cs : List Cmd) :
    (remove_body_handles_fold w p cs).1.colliders = p.colliders ∧
    (remove_body_handles_fold w p cs).1.nextCollider = p.nextCollider ∧
    (remove_body_handles_fold w p cs).1.nextBody = p.nextBody := by
  induction w generalizing p cs with
  | nil => exact ⟨rfl, rfl, rfl⟩
  | cons e w ih =>
    by_cases hnt : hasBodyTag e.2 = false
    · cases hh : e.2.bodyHandle with
      | some h =>
        rw [rb_step_match e w p cs hnt hh]
        exact ih _ _
      | none =>
        rw [rb_step_nomatch e w p cs (Or.inr hh)]
        exact ih p cs
    · rw [rb_step_nomatch e w p cs (Or.inl hnt)]
      exact ih p cs

theorem rb_bodies_none (w : World) (p : PhysicsResource) (cs : List Cmd)
    (h : ℕ) (hp : p.bodies h = none) :
    (remove_body_handles_fold w p cs).1.bodies h = none := by
  induction w generalizing p cs with
  | nil => exact hp
  | cons e w ih =>
    by_cases hnt : hasBodyTag e.2 = false
    · cases hh : e.2.bodyHandle with
      | some h2 =>
        rw [rb_step_match e w p cs hnt hh]
        refine ih _ _ ?_
        show (if h = h2 then none else p.bodies h) = none
        by_cases hk : h = h2
        · exact if_pos hk
        · rw [if_neg hk]
          exact hp
      | none =>
        rw [rb_step_nomatch e w p cs (Or.inr hh)]
        exact ih p cs hp
    · rw [rb_step_nomatch e w p cs (Or.inl hnt)]
      exact ih p cs hp

theorem rb_bodies_none_of (w : World) (p : PhysicsResource) (cs : List Cmd)
    {i : ℕ} {c : EntityComps} {h : ℕ} (hm : (i, c) ∈ w)
    (hnt : hasBodyTag c = false) (hh : c.bodyHandle = some h) :
    (remove_body_handles_fold w p cs).1.bodies h = none := by
  induction w generalizing p cs with
  | nil => simp at hm
  | cons e w ih =>
    rcases List.mem_cons.mp hm with he | ht
    · rw [rb_step_match e w p cs (by rw [← he]; exact hnt) (by rw [← he]; exact hh)]
      exact rb_bodies_none w _ _ h (if_pos rfl)
    · by_cases hnt2 : hasBodyTag e.2 = false
      · cases hh2 : e.2.bodyHandle with
        | some h2 =>
          rw [rb_step_match e w p cs hnt2 hh2]
          exact ih _ _ ht
        | none =>
          rw [rb_step_nomatch e w p cs (Or.inr hh2)]
          exact ih p cs ht
      · rw [rb_step_nomatch e w p cs (Or.inl hnt2)]
        exact ih p cs ht

theorem rb_bodies_pres (w : World) (p : PhysicsResource) (cs : List Cmd)
    (h : ℕ)
    (hsafe : ∀ e ∈ w, hasBodyTag e.2 = false → e.2.bodyHandle ≠ some h) :
    (remove_body_handles_fold w p cs).1.bodies h = p.bodies h := by
  induction w generalizing p cs with
  | nil => rfl
  | cons e w ih =>
    have hrest : ∀ x ∈ w, hasBodyTag x.2 = false → x.2.bodyHandle ≠ some h :=
      fun x hx => hsafe x (List.mem_cons_of_mem e hx)
    by_cases hnt : hasBodyTag e.2 = false
    · cases hh : e.2.bodyHandle with
      | some h2 =>
        have hne : h ≠ h2 := by
          intro hcon
          exact hsafe e (List.mem_cons_self e w) hnt (by rw [hh, hcon])
        rw [rb_step_match e w p cs hnt hh, ih _ _ hrest]
        exact if_neg hne
      | none =>
        rw [rb_step_nomatch e w p cs (Or.inr hh)]
        exact ih p cs hrest
    · rw [rb_step_nomatch e w p cs (Or.inl hnt)]
      exact ih p cs hrest

theorem rb_filter_skip (w : World) (p : PhysicsResource) (cs : List Cmd)
    (i : ℕ) (hni : i ∉ w.map Prod.fst) :
    ((remove_body_handles_fold w p cs).2).filter (fun cmd => cmd.entOf == i) =
      cs.filter (fun cmd => cmd.entOf == i) := by
  induction w generalizing p cs with
  | nil => rfl
  | cons e w ih =>
    rw [List.map_cons] at hni
    have h1 : e.1 ≠ i := fun hc => hni (by rw [← hc]; exact List.mem_cons_self _ _)
    have h2 : i ∉ w.map Prod.fst := fun hc => hni (List.mem_cons_of_mem _ hc)
    by_cases hnt : hasBodyTag e.2 = false
    · cases hh : e.2.bodyHandle with
      | some h =>
        rw [rb_step_match e w p cs hnt hh, ih _ _ h2, List.filter_append]
        simp [Cmd.entOf, h1]
      | none =>
        rw [rb_step_nomatch e w p cs (Or.inr hh)]
        exact ih _ _ h2
    · rw [rb_step_nomatch e w p cs (Or.inl hnt)]
      exact ih _ _ h2

theorem rb_filter_nomatch (w : World) (p : PhysicsResource) (cs : List Cmd)
    {i : ℕ} {c : EntityComps} (hN : WFIds w) (hfind : findEnt w i = some c)
    (hno : ¬ hasBodyTag c = false ∨ c.bodyHandle = none) :
    ((remove_body_handles_fold w p cs).2).filter (fun cmd => cmd.entOf == i) =
      cs.filter (fun cmd => cmd.entOf == i) := by
  induction w generalizing p cs with
  | nil => simp [findEnt] at hfind
  | cons e w ih =>
    rw [WFIds, List.map_cons, List.nodup_cons] at hN
    by_cases hei : e.1 = i
    · have hc : e.2 = c := by
        rw [findEnt_cons_self hei] at hfind
        injection hfind
      have hni : i ∉ w.map Prod.fst := by rw [← hei]; exact hN.1
      rw [rb_step_nomatch e w p cs (by rw [hc]; exact hno)]
      exact rb_filter_skip w p cs i hni
    · rw [findEnt_cons_ne hei] at hfind
      by_cases hnt : hasBodyTag e.2 = false
      · cases hh : e.2.bodyHandle with
        | some h =>
          rw [rb_step_match e w p cs hnt hh, ih _ _ hN.2 hfind, List.filter_append]
          simp [Cmd.entOf, hei]
        | none =>
          rw [rb_step_nomatch e w p cs (Or.inr hh)]
          exact ih _ _ hN.2 hfind
      · rw [rb_step_nomatch e w p cs (Or.inl hnt)]
        exact ih _ _ hN.2 hfind

theorem rb_filter_match (w : World) (p : PhysicsResource) (cs : List Cmd)
    {i : ℕ} {c : EntityComps} {h : ℕ} (hN : WFIds w)
    (hfind : findEnt w i = some c) (hnt : hasBodyTag c = false)
    (hh : c.bodyHandle = some h) :
    ((remove_body_handles_fold w p cs).2).filter (fun cmd => cmd.entOf == i) =
      cs.filter (fun cmd => cmd.entOf == i) ++ [Cmd.removeBodyHandle i] := by
  induction w generalizing p cs with
  | nil => simp [findEnt] at hfind
  | cons e w ih =>
    rw [WFIds, List.map_cons, List.nodup_cons] at hN
    by_cases hei : e.1 = i
    · have hc : e.2 = c := by
        rw [findEnt_cons_self hei] at hfind
        injection hfind
      have hni : i ∉ w.map Prod.fst := by rw [← hei]; exact hN.1
      rw [rb_step_match e w p cs (by rw [hc]; exact hnt) (by rw [hc]; exact hh)]
      rw [rb_filter_skip w _ _ i hni, List.filter_append, hei]
      simp [Cmd.entOf]
    · rw [findEnt_cons_ne hei] at hfind
      by_cases hnt2 : hasBodyTag e.2 = false
      · cases hh2 : e.2.bodyHandle with
        | some h2 =>
          rw [rb_step_match e w p cs hnt2 hh2, ih _ _ hN.2 hfind, List.filter_append]
          simp [Cmd.entOf, hei]
        | none =>
          rw [rb_step_nomatch e w p cs (Or.inr hh2)]
          exact ih _ _ hN.2 hfind
      · rw [rb_step_nomatch e w p cs (Or.inl hnt2)]
        exact ih _ _ hN.2 hfind

/-! Helper lemmas relating tags to descriptors and shapes. -/

theorem bodyDescFor_isSome (c : EntityComps) :
    (bodyDescFor c).isSome = hasBodyTag c := by
  unfold bodyDescFor hasBodyTag
  cases c.dynamicBody <;> cases c.staticBody <;> cases c.disabledBody <;> simp

theorem shapeFor_isSome (c : EntityComps) :
    (shapeFor c).isSome = hasShapeTag c := by
  unfold shapeFor hasShapeTag
  cases c.circleCollider <;> cases c.squareCollider <;> simp

/-! Lemmas about the `make_collider_handles` iteration. -/

theorem mc_step_match (e : ℕ × EntityComps) (w : World) (p : PhysicsResource)
    (cs : List Cmd) (hc : e.2.colliderHandle = none) {sh : Shape} {bh : ℕ}
    (hs : shapeFor e.2 = some sh) (hb : e.2.bodyHandle = some bh) :
    make_collider_handles_fold (e :: w) p cs =
      make_collider_handles_fold w
        { p with
            colliders := fun k =>
              if k = p.nextCollider then some ⟨sh, bh⟩ else p.colliders k,
            nextCollider := p.nextCollider + 1 }
        (cs ++ [Cmd.addColliderHandle e.1 p.nextCollider]) := by
  rw [make_collider_handles_fold, if_pos hc, hs, hb]

theorem mc_step_nomatch (e : ℕ × EntityComps) (w : World) (p : PhysicsResource)
    (cs : List Cmd)
    (hno : ¬ e.2.colliderHandle = none ∨ shapeFor e.2 = none ∨
      e.2.bodyHandle = none) :
    make_collider_handles_fold (e :: w) p cs =
      make_collider_handles_fold w p cs := by
  rcases hno with hno | hno | hno
  · rw [make_collider_handles_fold, if_neg hno]
  · by_cases hc : e.2.colliderHandle = none
    · rw [make_collider_handles_fold, if_pos hc, hno]
    · rw [make_collider_handles_fold, if_neg hc]
  · by_cases hc : e.2.colliderHandle = none
    · cases hs : shapeFor e.2 with
      | some sh => rw [make_collider_handles_fold, if_pos hc, hs, hno]
      | none => rw [make_collider_handles_fold, if_pos hc, hs]
    · rw [make_collider_handles_fold, if_neg hc]

theorem mc_nextCollider_le (w : World) (p : PhysicsResource) (cs : List Cmd) :
    p.nextCollider ≤ (make_collider_handles_fold w p cs).1.nextCollider := by
  induction w generalizing p cs with
  | nil => exact Nat.le_refl _
  | cons e w ih =>
    by_cases hc : e.2.colliderHandle = none
    · cases hs : shapeFor e.2 with
      | some sh =>
        cases hb : e.2.bodyHandle with
        | some bh =>
          rw [mc_step_match e w p cs hc hs hb]
          refine Nat.le_trans (Nat.le_succ p.nextCollider) ?_
          exact ih
            { p with
                colliders := fun k =>
                  if k = p.nextCollider then some ⟨sh, bh⟩ else p.colliders k,
                nextCollider := p.nextCollider + 1 }
            (cs ++ [Cmd.addColliderHandle e.1 p.nextCollider])
        | none =>
          rw [mc_step_nomatch e w p cs (Or.inr (Or.inr hb))]
          exact ih p cs
      | none =>
        rw [mc_step_nomatch e w p cs (Or.inr (Or.inl hs))]
        exact ih p cs
    · rw [mc_step_nomatch e w p cs (Or.inl hc)]
      exact ih p cs

theorem mc_colliders_lt (w : World) (p : PhysicsResource) (cs : List Cmd)
    (k : ℕ) (hk : k < p.nextCollider) :
    (make_collider_handles_fold w p cs).1.colliders k = p.colliders k := by
  induction w generalizing p cs with
  | nil => rfl
  | cons e w ih =>
    by_cases hc : e.2.colliderHandle = none
    · cases hs : shapeFor e.2 with
      | some sh =>
        cases hb : e.2.bodyHandle with
        | some bh =>
          rw [mc_step_match e w p cs hc hs hb]
          rw [ih _ _ (Nat.lt_succ_of_lt hk)]
          exact if_neg (Nat.ne_of_lt hk)
        | none =>
          rw [mc_step_nomatch e w p cs (Or.inr (Or.inr hb))]
          exact ih p cs hk
      | none =>
        rw [mc_step_nomatch e w p cs (Or.inr (Or.inl hs))]
        exact ih p cs hk
    · rw [mc_step_nomatch e w p cs (Or.inl hc)]
      exact ih p cs hk

theorem mc_phys_rest (w : World) (p : PhysicsResource) (cs : List Cmd) :
    (make_collider_handles_fold w p cs).1.bodies = p.bodies ∧
    (make_collider_handles_fold w p cs).1.nextBody = p.nextBody := by
  induction w generalizing p cs with
  | nil => exact ⟨rfl, rfl⟩
  | cons e w ih =>
    by_cases hc : e.2.colliderHandle = none
    · cases hs : shapeFor e.2 with
      | some sh =>
        cases hb : e.2.bodyHandle with
        | some bh =>
          rw [mc_step_match e w p cs hc hs hb]
          exact ih _ _
        | none =>
          rw [mc_step_nomatch e w p cs (Or.inr (Or.inr hb))]
          exact ih p cs
      | none =>
        rw [mc_step_nomatch e w p cs (Or.inr (Or.inl hs))]
        exact ih p cs
    · rw [mc_step_nomatch e w p cs (Or.inl hc)]
      exact ih p cs

theorem mc_filter_skip (w : World) (p : PhysicsResource) (cs : List Cmd)
    (i : ℕ) (hni : i ∉ w.map Prod.fst) :
    ((make_collider_handles_fold w p cs).2).filter (fun cmd => cmd.entOf == i) =
      cs.filter (fun cmd => cmd.entOf == i) := by
  induction w generalizing p cs with
  | nil => rfl
  | cons e w ih =>
    rw [List.map_cons] at hni
    have h1 : e.1 ≠ i := fun hc => hni (by rw [← hc]; exact List.mem_cons_self _ _)
    have h2 : i ∉ w.map Prod.fst := fun hc => hni (List.mem_cons_of_mem _ hc)
    by_cases hc : e.2.colliderHandle = none
    · cases hs : shapeFor e.2 with
      | some sh =>
        cases hb : e.2.bodyHandle with
        | some bh =>
          rw [mc_step_match e w p cs hc hs hb, ih _ _ h2, List.filter_append]
          simp [Cmd.entOf, h1]
        | none =>
          rw [mc_step_nomatch e w p cs (Or.inr (Or.inr hb))]
          exact ih _ _ h2
      | none =>
        rw [mc_step_nomatch e w p cs (Or.inr (Or.inl hs))]
        exact ih _ _ h2
    · rw [mc_step_nomatch e w p cs (Or.inl hc)]
      exact ih _ _ h2

theorem mc_filter_nomatch (w : World) (p : PhysicsResource) (cs : List Cmd)
    {i : ℕ} {c : EntityComps} (hN : WFIds w) (hfind : findEnt w i = some c)
    (hno : ¬ c.colliderHandle = none ∨ shapeFor c = none ∨ c.bodyHandle = none) :
    ((make_collider_handles_fold w p cs).2).filter (fun cmd => cmd.entOf == i) =
      cs.filter (fun cmd => cmd.entOf == i) := by
  induction w generalizing p cs with
  | nil => simp [findEnt] at hfind
  | cons e w ih =>
    rw [WFIds, List.map_cons, List.nodup_cons] at hN
    by_cases hei : e.1 = i
    · have hc : e.2 = c := by
        rw [findEnt_cons_self hei] at hfind
        injection hfind
      have hni : i ∉ w.map Prod.fst := by rw [← hei]; exact hN.1
      rw [mc_step_nomatch e w p cs (by rw [hc]; exact hno)]
      exact mc_filter_skip w p cs i hni
    · rw [findEnt_cons_ne hei] at hfind
      by_cases hc : e.2.colliderHandle = none
      · cases hs : shapeFor e.2 with
        | some sh =>
          cases hb : e.2.bodyHandle with
          | some bh =>
            rw [mc_step_match e w p cs hc hs hb, ih _ _ hN.2 hfind,
              List.filter_append]
            simp [Cmd.entOf, hei]
          | none =>
            rw [mc_step_nomatch e w p cs (Or.inr (Or.inr hb))]
            exact ih _ _ hN.2 hfind
        | none =>
          rw [mc_step_nomatch e w p cs (Or.inr (Or.inl hs))]
          exact ih _ _ hN.2 hfind
      · rw [mc_step_nomatch e w p cs (Or.inl hc)]
        exact ih _ _ hN.2 hfind

theorem mc_filter_match (w : World) (p : PhysicsResource) (cs : List Cmd)
    {i : ℕ} {c : EntityComps} (hN : WFIds w) (hfind : findEnt w i = some c)
    (hnone : c.colliderHandle = none) {sh : Shape} {bh : ℕ}
    (hs : shapeFor c = some sh) (hb : c.bodyHandle = some bh) :
    ∃ h, ((make_collider_handles_fold w p cs).2).filter
          (fun cmd => cmd.entOf == i) =
        cs.filter (fun cmd => cmd.entOf == i) ++ [Cmd.addColliderHandle i h] ∧
      (make_collider_handles_fold w p cs).1.colliders h = some ⟨sh, bh⟩ ∧
      p.nextCollider ≤ h := by
  induction w generalizing p cs with
  | nil => simp [findEnt] at hfind
  | cons e w ih =>
    rw [WFIds, List.map_cons, List.nodup_cons] at hN
    by_cases hei : e.1 = i
    · have hc : e.2 = c := by
        rw [findEnt_cons_self hei] at hfind
        injection hfind
      have hni : i ∉ w.map Prod.fst := by rw [← hei]; exact hN.1
      rw [mc_step_match e w p cs (by rw [hc]; exact hnone) (by rw [hc]; exact hs)
        (by rw [hc]; exact hb)]
      refine ⟨p.nextCollider, ?_, ?_, Nat.le_refl _⟩
      · rw [mc_filter_skip w _ _ i hni, List.filter_append, hei]
        simp [Cmd.entOf]
      · rw [mc_colliders_lt _ _ _ _ (Nat.lt_succ_self p.nextCollider)]
        exact if_pos rfl
    · rw [findEnt_cons_ne hei] at hfind
      by_cases hc : e.2.colliderHandle = none
      · cases hs2 : shapeFor e.2 with
        | some sh2 =>
          cases hb2 : e.2.bodyHandle with
          | some bh2 =>
            rw [mc_step_match e w p cs hc hs2 hb2]
            obtain ⟨h, hfil, hcol, hle⟩ := ih _ _ hN.2 hfind
            refine ⟨h, ?_, hcol, Nat.le_trans (Nat.le_succ _) hle⟩
            rw [hfil, List.filter_append]
            simp [Cmd.entOf, hei]
          | none =>
            rw [mc_step_nomatch e w p cs (Or.inr (Or.inr hb2))]
            exact ih _ _ hN.2 hfind
        | none =>
          rw [mc_step_nomatch e w p cs (Or.inr (Or.inl hs2))]
          exact ih _ _ hN.2 hfind
      · rw [mc_step_nomatch e w p cs (Or.inl hc)]
        exact ih _ _ hN.2 hfind

/-! Lemmas about the `remove_collider_handles` iteration. -/

theorem rc_step_match (e : ℕ × EntityComps) (w : World) (p : PhysicsResource)
    (cs : List Cmd) (hnt : hasShapeTag e.2 = false) {h : ℕ}
    (hh : e.2.colliderHandle = some h) :
    remove_collider_handles_fold (e :: w) p cs =
      remove_collider_handles_fold w
        { p with colliders := fun k => if k = h then none else p.colliders k }
        (cs ++ [Cmd.removeColliderHandle e.1]) := by
  rw [remove_collider_handles_fold, if_pos hnt, hh]

theorem rc_step_nomatch (e : ℕ × EntityComps) (w : World) (p : PhysicsResource)
    (cs : List Cmd)
    (hno : ¬ hasShapeTag e.2 = false ∨ e.2.colliderHandle = none) :
    remove_collider_handles_fold (e :: w) p cs =
      remove_collider_handles_fold w p cs := by
  rcases hno with hno | hno
  · rw [remove_collider_handles_fold, if_neg hno]
  · by_cases ht : hasShapeTag e.2 = false
    · rw [remove_collider_handles_fold, if_pos ht, hno]
    · rw [remove_collider_handles_fold, if_neg ht]

theorem rc_phys_rest (w : World) (p : PhysicsResource) (cs : List Cmd) :
    (remove_collider_handles_fold w p cs).1.bodies = p.bodies ∧
    (remove_collider_handles_fold w p cs).1.nextBody = p.nextBody ∧
    (remove_collider_handles_fold w p cs).1.nextCollider = p.nextCollider := by
  induction w generalizing p cs with
  | nil => exact ⟨rfl, rfl, rfl⟩
  | cons e w ih =>
    by_cases hnt : hasShapeTag e.2 = false
    · cases hh : e.2.colliderHandle with
      | some h =>
        rw [rc_step_match e w p cs hnt hh]
        exact ih _ _
      | none =>
        rw [rc_step_nomatch e w p cs (Or.inr hh)]
        exact ih p cs
    · rw [rc_step_nomatch e w p cs (Or.inl hnt)]
      exact ih p cs

theorem rc_colliders_none (w : World) (p : PhysicsResource) (cs : List Cmd)
    (h : ℕ) (hp : p.colliders h = none) :
    (remove_collider_handles_fold w p cs).1.colliders h = none := by
  induction w generalizing p cs with
  | nil => exact hp
  | cons e w ih =>
    by_cases hnt : hasShapeTag e.2 = false
    · cases hh : e.2.colliderHandle with
      | some h2 =>
        rw [rc_step_match e w p cs hnt hh]
        refine ih _ _ ?_
        show (if h = h2 then none else p.colliders h) = none
        by_cases hk : h = h2
        · exact if_pos hk
        · rw [if_neg hk]
          exact hp
      | none =>
        rw [rc_step_nomatch e w p cs (Or.inr hh)]
        exact ih p cs hp
    · rw [rc_step_nomatch e w p cs (Or.inl hnt)]
      exact ih p cs hp

theorem rc_colliders_none_of (w : World) (p : PhysicsResource) (cs : List Cmd)
    {i : ℕ} {c : EntityComps} {h : ℕ} (hm : (i, c) ∈ w)
    (hnt : hasShapeTag c = false) (hh : c.colliderHandle = some h) :
    (remove_collider_handles_fold w p cs).1.colliders h = none := by
  induction w generalizing p cs with
  | nil => simp at hm
  | cons e w ih =>
    rcases List.mem_cons.mp hm with he | ht
    · rw [rc_step_match e w p cs (by rw [← he]; exact hnt) (by rw [← he]; exact hh)]
      exact rc_colliders_none w _ _ h (if_pos rfl)
    · by_cases hnt2 : hasShapeTag e.2 = false
      · cases hh2 : e.2.colliderHandle with
        | some h2 =>
          rw [rc_step_match e w p cs hnt2 hh2]
          exact ih _ _ ht
        | none =>
          rw [rc_step_nomatch e w p cs (Or.inr hh2)]
          exact ih p cs ht
      · rw [rc_step_nomatch e w p cs (Or.inl hnt2)]
        exact ih p cs ht

theorem rc_colliders_pres (w : World) (p : PhysicsResource) (cs : List Cmd)
    (h : ℕ)
    (hsafe : ∀ e ∈ w, hasShapeTag e.2 = false → e.2.colliderHandle ≠ some h) :
    (remove_collider_handles_fold w p cs).1.colliders h = p.colliders h := by
  induction w generalizing p cs with
  | nil => rfl
  | cons e w ih =>
    have hrest : ∀ x ∈ w, hasShapeTag x.2 = false → x.2.colliderHandle ≠ some h :=
      fun x hx => hsafe x (List.mem_cons_of_mem e hx)
    by_cases hnt : hasShapeTag e.2 = false
    · cases hh : e.2.colliderHandle with
      | some h2 =>
        have hne : h ≠ h2 := by
          intro hcon
          exact hsafe e (List.mem_cons_self e w) hnt (by rw [hh, hcon])
        rw [rc_step_match e w p cs hnt hh, ih _ _ hrest]
        exact if_neg hne
      | none =>
        rw [rc_step_nomatch e w p cs (Or.inr hh)]
        exact ih p cs hrest
    · rw [rc_step_nomatch e w p cs (Or.inl hnt)]
      exact ih p cs hrest

theorem rc_filter_skip (w : World) (p : PhysicsResource) (cs : List Cmd)
    (i : ℕ) (hni : i ∉ w.map Prod.fst) :
    ((remove_collider_handles_fold w p cs).2).filter (fun cmd => cmd.entOf == i) =
      cs.filter (fun cmd => cmd.entOf == i) := by
  induction w generalizing p cs with
  | nil => rfl
  | cons e w ih =>
    rw [List.map_cons] at hni
    have h1 : e.1 ≠ i := fun hc => hni (by rw [← hc]; exact List.mem_cons_self _ _)
    have h2 : i ∉ w.map Prod.fst := fun hc => hni (List.mem_cons_of_mem _ hc)
    by_cases hnt : hasShapeTag e.2 = false
    · cases hh : e.2.colliderHandle with
      | some h =>
        rw [rc_step_match e w p cs hnt hh, ih _ _ h2, List.filter_append]
        simp [Cmd.entOf, h1]
      | none =>
        rw [rc_step_nomatch e w p cs (Or.inr hh)]
        exact ih _ _ h2
    · rw [rc_step_nomatch e w p cs (Or.inl hnt)]
      exact ih _ _ h2

theorem rc_filter_nomatch (w : World) (p : PhysicsResource) (cs : List Cmd)
    {i : ℕ} {c : EntityComps} (hN : WFIds w) (hfind : findEnt w i = some c)
    (hno : ¬ hasShapeTag c = false ∨ c.colliderHandle = none) :
    ((remove_collider_handles_fold w p cs).2).filter (fun cmd => cmd.entOf == i) =
      cs.filter (fun cmd => cmd.entOf == i) := by
  induction w generalizing p cs with
  | nil => simp [findEnt] at hfind
  | cons e w ih =>
    rw [WFIds, List.map_cons, List.nodup_cons] at hN
    by_cases hei : e.1 = i
    · have hc : e.2 = c := by
        rw [findEnt_cons_self hei] at hfind
        injection hfind
      have hni : i ∉ w.map Prod.fst := by rw [← hei]; exact hN.1
      rw [rc_step_nomatch e w p cs (by rw [hc]; exact hno)]
      exact rc_filter_skip w p cs i hni
    · rw [findEnt_cons_ne hei] at hfind
      by_cases hnt : hasShapeTag e.2 = false
      · cases hh : e.2.colliderHandle with
        | some h =>
          rw [rc_step_match e w p cs hnt hh, ih _ _ hN.2 hfind, List.filter_append]
          simp [Cmd.entOf, hei]
        | none =>
          rw [rc_step_nomatch e w p cs (Or.inr hh)]
          exact ih _ _ hN.2 hfind
      · rw [rc_step_nomatch e w p cs (Or.inl hnt)]
        exact ih _ _ hN.2 hfind

theorem rc_filter_match (w : World) (p : PhysicsResource) (cs : List Cmd)
    {i : ℕ} {c : EntityComps} {h : ℕ} (hN : WFIds w)
    (hfind : findEnt w i = some c) (hnt : hasShapeTag c = false)
    (hh : c.colliderHandle = some h) :
    ((remove_collider_handles_fold w p cs).2).filter (fun cmd => cmd.entOf == i) =
      cs.filter (fun cmd => cmd.entOf == i) ++ [Cmd.removeColliderHandle i] := by
  induction w generalizing p cs with
  | nil => simp [findEnt] at hfind
  | cons e w ih =>
    rw [WFIds, List.map_cons, List.nodup_cons] at hN
    by_cases hei : e.1 = i
    · have hc : e.2 = c := by
        rw [findEnt_cons_self hei] at hfind
        injection hfind
      have hni : i ∉ w.map Prod.fst := by rw [← hei]; exact hN.1
      rw [rc_step_match e w p cs (by rw [hc]; exact hnt) (by rw [hc]; exact hh)]
      rw [rc_filter_skip w _ _ i hni, List.filter_append, hei]
      simp [Cmd.entOf]
    · rw [findEnt_cons_ne hei] at hfind
      by_cases hnt2 : hasShapeTag e.2 = false
      · cases hh2 : e.2.colliderHandle with
        | some h2 =>
          rw [rc_step_match e w p cs hnt2 hh2, ih _ _ hN.2 hfind,
            List.filter_append]
          simp [Cmd.entOf, hei]
        | none =>
          rw [rc_step_nomatch e w p cs (Or.inr hh2)]
          exact ih _ _ hN.2 hfind
      · rw [rc_step_nomatch e w p cs (Or.inl hnt2)]
        exact ih _ _ hN.2 hfind

/-! Per-entity characterization of the body handle lifecycle stage
(creation pass, removal pass, barrier). -/

theorem map_keyed_fst (w : World) (f : ℕ → EntityComps → EntityComps) :
    (w.map (fun e => (e.1, f e.1 e.2))).map Prod.fst = w.map Prod.fst := by
  induction w with
  | nil => rfl
  | cons e w ih => simp only [List.map_cons, ih]

theorem bodyHandleStage_spec (w : World) (p : PhysicsResource) {i : ℕ}
    {c : EntityComps} (hN : WFIds w) (hfind : findEnt w i = some c) :
    ∃ c', findEnt (bodyHandleStage ⟨w, p, []⟩).world i = some c' ∧
      c'.position = c.position ∧ c'.velocity = c.velocity ∧
      c'.orientation = c.orientation ∧ c'.dynamicBody = c.dynamicBody ∧
      c'.staticBody = c.staticBody ∧ c'.disabledBody = c.disabledBody ∧
      c'.circleCollider = c.circleCollider ∧
      c'.squareCollider = c.squareCollider ∧
      c'.colliderHandle = c.colliderHandle ∧
      c'.bodyHandle.isSome = hasBodyTag c ∧
      (hasBodyTag c = true → ¬ c.bodyHandle = none →
        c'.bodyHandle = c.bodyHandle) ∧
      (hasBodyTag c = false → ∀ h, c.bodyHandle = some h →
        (bodyHandleStage ⟨w, p, []⟩).phys.bodies h = none) := by
  have hfind2 : findEnt (bodyHandleStage ⟨w, p, []⟩).world i =
      some (applyAll
        (((remove_body_handles_fold w (make_body_handles_fold w p []).1
            (make_body_handles_fold w p []).2).2).filter
          (fun cmd => cmd.entOf == i)) i c) := by
    have h1 : findEnt (bodyHandleStage ⟨w, p, []⟩).world i =
        (findEnt w i).map
          (applyAll (remove_body_handles_fold w (make_body_handles_fold w p []).1
            (make_body_handles_fold w p []).2).2 i) :=
      findEnt_map w i _
    rw [h1, hfind]
    exact congrArg some (applyAll_filter _ i c)
  cases htag : hasBodyTag c with
  | true =>
    cases hbh : c.bodyHandle with
    | none =>
      have hbs : (bodyDescFor c).isSome = true := by
        rw [bodyDescFor_isSome, htag]
      obtain ⟨b, hd⟩ := Option.isSome_iff_exists.mp hbs
      obtain ⟨h, hfil1, hbod1, hle1⟩ := mb_filter_match w p [] hN hfind hbh hd
      have hfil2 := rb_filter_nomatch w (make_body_handles_fold w p []).1
        (make_body_handles_fold w p []).2 hN hfind (Or.inl (by rw [htag]; simp))
      rw [hfil2, hfil1] at hfind2
      have happ : applyAll (List.filter (fun cmd => cmd.entOf == i) [] ++
          [Cmd.addBodyHandle i h]) i c =
          { c with bodyHandle := some h, bodyHandleChanged := true } := by
        simp [applyAll, applyCmdComp]
      rw [happ] at hfind2
      exact ⟨_, hfind2, rfl, rfl, rfl, rfl, rfl, rfl, rfl, rfl, rfl, rfl,
        fun _ hcon => absurd rfl hcon, fun hcon => absurd hcon (by simp)⟩
    | some h0 =>
      have hfil1 := mb_filter_nomatch w p [] hN hfind (Or.inl (by rw [hbh]; simp))
      have hfil2 := rb_filter_nomatch w (make_body_handles_fold w p []).1
        (make_body_handles_fold w p []).2 hN hfind (Or.inl (by rw [htag]; simp))
      rw [hfil2, hfil1] at hfind2
      have happ : applyAll (List.filter (fun cmd => cmd.entOf == i) []) i c = c := by
        simp [applyAll]
      rw [happ] at hfind2
      exact ⟨c, hfind2, rfl, rfl, rfl, rfl, rfl, rfl, rfl, rfl, rfl,
        by simp [hbh], fun _ _ => hbh, fun hcon => absurd hcon (by simp)⟩
  | false =>
    have hds : bodyDescFor c = none := by
      have := bodyDescFor_isSome c
      rw [htag] at this
      exact Option.not_isSome_iff_eq_none.mp (by rw [this]; simp)
    cases hbh : c.bodyHandle with
    | none =>
      have hfil1 := mb_filter_nomatch w p [] hN hfind (Or.inr hds)
      have hfil2 := rb_filter_nomatch w (make_body_handles_fold w p []).1
        (make_body_handles_fold w p []).2 hN hfind (Or.inr hbh)
      rw [hfil2, hfil1] at hfind2
      have happ : applyAll (List.filter (fun cmd => cmd.entOf == i) []) i c = c := by
        simp [applyAll]
      rw [happ] at hfind2
      exact ⟨c, hfind2, rfl, rfl, rfl, rfl, rfl, rfl, rfl, rfl, rfl,
        by simp [hbh], fun hcon => absurd hcon (by simp),
        fun _ h hcon => Option.noConfusion hcon⟩
    | some h0 =>
      have hfil1 := mb_filter_nomatch w p [] hN hfind (Or.inr hds)
      have hfil2 := rb_filter_match w (make_body_handles_fold w p []).1
        (make_body_handles_fold w p []).2 hN hfind htag hbh
      rw [hfil2, hfil1] at hfind2
      have happ : applyAll (List.filter (fun cmd => cmd.entOf == i) [] ++
          [Cmd.removeBodyHandle i]) i c = { c with bodyHandle := none } := by
        simp [applyAll, applyCmdComp]
      rw [happ] at hfind2
      refine ⟨_, hfind2, rfl, rfl, rfl, rfl, rfl, rfl, rfl, rfl, rfl, rfl,
        fun hcon => absurd hcon (by simp), fun _ h hcon => ?_⟩
      injection hcon with hcon2
      subst hcon2
      exact rb_bodies_none_of w (make_body_handles_fold w p []).1
        (make_body_handles_fold w p []).2 (findEnt_mem hfind) htag hbh

/-! Per-entity characterization of the collider handle lifecycle stage
(creation pass, removal pass, barrier). -/

theorem colliderHandleStage_spec (w : World) (p : PhysicsResource) {i : ℕ}
    {c : EntityComps} (hN : WFIds w) (hfind : findEnt w i = some c) :
    ∃ c', findEnt (colliderHandleStage ⟨w, p, []⟩).world i = some c' ∧
      c'.position = c.position ∧ c'.velocity = c.velocity ∧
      c'.orientation = c.orientation ∧ c'.dynamicBody = c.dynamicBody ∧
      c'.staticBody = c.staticBody ∧ c'.disabledBody = c.disabledBody ∧
      c'.circleCollider = c.circleCollider ∧
      c'.squareCollider = c.squareCollider ∧
      c'.bodyHandle = c.bodyHandle ∧
      c'.bodyHandleChanged = c.bodyHandleChanged ∧
      (hasShapeTag c = false → c'.colliderHandle = none) ∧
      (hasShapeTag c = true → ¬ c.colliderHandle = none →
        c'.colliderHandle = c.colliderHandle) ∧
      (hasShapeTag c = true → c.colliderHandle = none → c.bodyHandle = none →
        c'.colliderHandle = none) ∧
      (hasShapeTag c = true → c.colliderHandle = none →
        c.bodyHandle.isSome = true → c'.colliderHandle.isSome = true) := by
  have hfind2 : findEnt (colliderHandleStage ⟨w, p, []⟩).world i =
      some (applyAll
        (((remove_collider_handles_fold w (make_collider_handles_fold w p []).1
            (make_collider_handles_fold w p []).2).2).filter
          (fun cmd => cmd.entOf == i)) i c) := by
    have h1 : findEnt (colliderHandleStage ⟨w, p, []⟩).world i =
        (findEnt w i).map
          (applyAll (remove_collider_handles_fold w
            (make_collider_handles_fold w p []).1
            (make_collider_handles_fold w p []).2).2 i) :=
      findEnt_map w i _
    rw [h1, hfind]
    exact congrArg some (applyAll_filter _ i c)
  cases hst : hasShapeTag c with
  | false =>
    have hss : shapeFor c = none := by
      have := shapeFor_isSome c
      rw [hst] at this
      exact Option.not_isSome_iff_eq_none.mp (by rw [this]; simp)
    cases hch : c.colliderHandle with
    | none =>
      have hfil1 := mc_filter_nomatch w p [] hN hfind (Or.inr (Or.inl hss))
      have hfil2 := rc_filter_nomatch w (make_collider_handles_fold w p []).1
        (make_collider_handles_fold w p []).2 hN hfind (Or.inr hch)
      rw [hfil2, hfil1] at hfind2
      have happ : applyAll (List.filter (fun cmd => cmd.entOf == i) []) i c = c := by
        simp [applyAll]
      rw [happ] at hfind2
      exact ⟨c, hfind2, rfl, rfl, rfl, rfl, rfl, rfl, rfl, rfl, rfl, rfl,
        fun _ => hch, fun hcon => absurd hcon (by simp),
        fun hcon => absurd hcon (by simp), fun hcon => absurd hcon (by simp)⟩
    | some h0 =>
      have hfil1 := mc_filter_nomatch w p [] hN hfind (Or.inr (Or.inl hss))
      have hfil2 := rc_filter_match w (make_collider_handles_fold w p []).1
        (make_collider_handles_fold w p []).2 hN hfind hst hch
      rw [hfil2, hfil1] at hfind2
      have happ : applyAll (List.filter (fun cmd => cmd.entOf == i) [] ++
          [Cmd.removeColliderHandle i]) i c =
          { c with colliderHandle := none } := by
        simp [applyAll, applyCmdComp]
      rw [happ] at hfind2
      exact ⟨_, hfind2, rfl, rfl, rfl, rfl, rfl, rfl, rfl, rfl, rfl, rfl,
        fun _ => rfl, fun hcon => absurd hcon (by simp),
        fun hcon => absurd hcon (by simp), fun hcon => absurd hcon (by simp)⟩
  | true =>
    cases hch : c.colliderHandle with
    | some h0 =>
      have hfil1 := mc_filter_nomatch w p [] hN hfind (Or.inl (by rw [hch]; simp))
      have hfil2 := rc_filter_nomatch w (make_collider_handles_fold w p []).1
        (make_collider_handles_fold w p []).2 hN hfind
        (Or.inl (by rw [hst]; simp))
      rw [hfil2, hfil1] at hfind2
      have happ : applyAll (List.filter (fun cmd => cmd.entOf == i) []) i c = c := by
        simp [applyAll]
      rw [happ] at hfind2
      exact ⟨c, hfind2, rfl, rfl, rfl, rfl, rfl, rfl, rfl, rfl, rfl, rfl,
        fun hcon => absurd hcon (by simp), fun _ _ => hch,
        fun _ hcon => Option.noConfusion hcon,
        fun _ hcon => Option.noConfusion hcon⟩
    | none =>
      have hsh : (shapeFor c).isSome = true := by rw [shapeFor_isSome, hst]
      obtain ⟨sh, hss⟩ := Option.isSome_iff_exists.mp hsh
      cases hbh : c.bodyHandle with
      | none =>
        have hfil1 := mc_filter_nomatch w p [] hN hfind (Or.inr (Or.inr hbh))
        have hfil2 := rc_filter_nomatch w (make_collider_handles_fold w p []).1
          (make_collider_handles_fold w p []).2 hN hfind (Or.inr hch)
        rw [hfil2, hfil1] at hfind2
        have happ : applyAll (List.filter (fun cmd => cmd.entOf == i) []) i c = c := by
          simp [applyAll]
        rw [happ] at hfind2
        exact ⟨c, hfind2, rfl, rfl, rfl, rfl, rfl, rfl, rfl, rfl, hbh, rfl,
          fun hcon => absurd hcon (by simp), fun _ hcon => absurd rfl hcon,
          fun _ _ _ => hch, fun _ _ hcon => by simp at hcon⟩
      | some bh =>
        obtain ⟨h, hfil1, hcol1, hle1⟩ := mc_filter_match w p [] hN hfind hch hss hbh
        have hfil2 := rc_filter_nomatch w (make_collider_handles_fold w p []).1
          (make_collider_handles_fold w p []).2 hN hfind
          (Or.inl (by rw [hst]; simp))
        rw [hfil2, hfil1] at hfind2
        have happ : applyAll (List.filter (fun cmd => cmd.entOf == i) [] ++
            [Cmd.addColliderHandle i h]) i c =
            { c with colliderHandle := some h } := by
          simp [applyAll, applyCmdComp]
        rw [happ] at hfind2
        exact ⟨_, hfind2, rfl, rfl, rfl, rfl, rfl, rfl, rfl, rfl, hbh, rfl,
          fun hcon => absurd hcon (by simp), fun _ hcon => absurd rfl hcon,
          fun _ _ hcon => Option.noConfusion hcon, fun _ _ _ => rfl⟩

/-! Lemmas about validation. -/

theorem dynCheck_none_iff (c : EntityComps) :
    dynCheck c = none ↔ dynOk c = true := by
  unfold dynCheck dynOk
  cases c.dynamicBody <;> cases c.position <;> cases c.velocity <;>
    cases c.orientation <;> cases c.staticBody <;> simp

theorem statCheck_none_iff (c : EntityComps) :
    statCheck c = none ↔ statOk c = true := by
  unfold statCheck statOk
  cases c.staticBody <;> cases c.position <;> cases c.velocity <;>
    cases c.speed <;> cases c.acceleration <;> cases c.force <;> simp

/-! Composition of the pull-back stage with a lookup. -/

theorem findEnt_pull (s : State) (i : ℕ) :
    findEnt (physics_world_to_entity_world s).world i =
      (findEnt s.world i).map (pullComp s.phys) :=
  findEnt_map s.world i (fun _ x => pullComp s.phys x)

/-! Claim theorems and their witnesses. -/

/-- Counterexample for C1: a dynamic entity whose handle was created in an
earlier tick; the backend step changes the velocity of its body to (9, 9),
yet after the tick its `Velocity` component is still zero — the pull-back
does not run for it, because a backend state change alone never satisfies
the `maybe_changed::<BodyHandle>` filter. -/
theorem C1_counterexample :
    (tick moveStep pullMissCexState).map (fun s' =>
        ((findEnt s'.world 0).map (fun c => c.velocity),
          (s'.phys.bodies 0).map (fun b => b.linvel)))
      = Except.ok (some (some Vec2.zero), some ⟨.fin 9, .fin 9⟩) := by rfl

/-- C1 (amended): after the backend step of a tick, for every entity that
has both `BodyHandle` and `DynamicBody`, whose `BodyHandle` component was
written this tick (the `maybe_changed::<BodyHandle>` filter, modelled by the
`bodyHandleChanged` flag — a pure backend state change does not satisfy it),
and whose handle resolves to a backend rigid body, the pull-back stage
`physics_world_to_entity_world` reads position, linear velocity and
orientation from that body and overwrites the `Position`, `Velocity` and
`Orientation` components with those values. -/
theorem C1_pull_back_overwrites (s : State) {i : ℕ} {c : EntityComps} {h : ℕ}
    {bod : RigidBody} (hfind : findEnt s.world i = some c)
    (hdyn : c.dynamicBody.isSome = true) (hh : c.bodyHandle = some h)
    (hch : c.bodyHandleChanged = true) (hbod : s.phys.bodies h = some bod)
    (hp : c.position.isSome = true) (hv : c.velocity.isSome = true)
    (ho : c.orientation.isSome = true) :
    ∃ c', findEnt (physics_world_to_entity_world s).world i = some c' ∧
      c'.position = some bod.position ∧ c'.velocity = some bod.linvel ∧
      c'.orientation = some bod.rotation.radToDeg := by
  obtain ⟨d, hd⟩ := Option.isSome_iff_exists.mp hdyn
  obtain ⟨pv, hpv⟩ := Option.isSome_iff_exists.mp hp
  obtain ⟨vv, hvv⟩ := Option.isSome_iff_exists.mp hv
  obtain ⟨ov, hov⟩ := Option.isSome_iff_exists.mp ho
  have hcomp : pullComp s.phys c =
      { c with
          position := some bod.position,
          velocity := some bod.linvel,
          orientation := some bod.rotation.radToDeg,
          bodyHandleChanged := false } := by
    simp only [pullComp, hd, hh, hch, hbod, hpv, hvv, hov]
    rfl
  rw [findEnt_pull, hfind]
  exact ⟨_, rfl, by rw [hcomp], by rw [hcomp], by rw [hcomp]⟩

/-- Witness for C1 at a concrete state. -/
theorem C1_witness :
    ∃ c', findEnt (physics_world_to_entity_world pullWitState).world 0 = some c' ∧
      c'.position = some ⟨.fin 3, .fin 4⟩ ∧
      c'.velocity = some ⟨.fin 1, .fin 0⟩ ∧
      c'.orientation = some (F.radToDeg (.fin 0)) :=
  C1_pull_back_overwrites pullWitState (i := 0)
    (c := { dynamicBody := some ⟨2⟩, position := some ⟨.fin 5, .fin 5⟩,
            velocity := some Vec2.zero, orientation := some (.fin 0),
            bodyHandle := some 0, bodyHandleChanged := true })
    (h := 0) rfl rfl rfl rfl rfl rfl rfl rfl

/-- C10: when an entity carries a `BodyHandle` that does not resolve to a
rigid body in the backend set, both the push stage
(`entity_world_to_physics_world`, whose per-entity action is `pushStep`) and
the pull stage (`physics_world_to_entity_world`) silently skip it: the
backend is not touched for it, no error is raised, the handle component
stays, and `Position`, `Velocity`, `Orientation` are left unchanged. -/
theorem C10_stale_handle_skipped (s : State) {i : ℕ} {c : EntityComps} {h : ℕ}
    (hfind : findEnt s.world i = some c) (hh : c.bodyHandle = some h)
    (hstale : s.phys.bodies h = none) :
    pushStep s.phys (i, c) = s.phys ∧
    ∃ c', findEnt (physics_world_to_entity_world s).world i = some c' ∧
      c' = { c with bodyHandleChanged := false } := by
  constructor
  · unfold pushStep
    cases hd : c.dynamicBody <;> cases hp : c.position <;>
      cases hv : c.velocity <;> cases ho : c.orientation <;>
        simp [hh, hstale]
  · have hcomp : pullComp s.phys c = { c with bodyHandleChanged := false } := by
      unfold pullComp
      cases hd : c.dynamicBody <;> cases hch : c.bodyHandleChanged <;>
        simp [hh, hstale]
    rw [findEnt_pull, hfind]
    exact ⟨_, rfl, hcomp⟩

/-- Witness for C10 at a concrete state. -/
theorem C10_witness :
    pushStep emptyPhys (3, staleWitComps) = emptyPhys ∧
    ∃ c', findEnt (physics_world_to_entity_world
        ⟨[(3, staleWitComps)], emptyPhys, []⟩).world 3 = some c' ∧
      c' = { staleWitComps with bodyHandleChanged := false } :=
  C10_stale_handle_skipped ⟨[(3, staleWitComps)], emptyPhys, []⟩ (i := 3)
    rfl rfl rfl

/-- Within one successful tick, every entity keeps its identity; its tag
components are never written, and when it has no `DynamicBody` its
`Position`, `Velocity` and `Orientation` are never written either (the
`movement` system is not registered, so only the pull-back writes
kinematics). -/
theorem tick_preserves_components (f : PhysicsResource → PhysicsResource)
    (s s' : State) (hrun : tick f s = Except.ok s')
    {i : ℕ} {c : EntityComps} (hfind : findEnt s.world i = some c) :
    ∃ c', findEnt s'.world i = some c' ∧ c'.dynamicBody = c.dynamicBody ∧
      (c.dynamicBody = none →
        c'.position = c.position ∧ c'.velocity = c.velocity ∧
        c'.orientation = c.orientation) := by
  unfold tick at hrun
  cases hval : validate_physics_entities s.world with
  | error msg =>
    rw [hval] at hrun
    exact Except.noConfusion hrun
  | ok u =>
    rw [hval] at hrun
    injection hrun with hs'
    subst hs'
    have h3 : findEnt
        (flush_command_buffer (remove_body_handles (make_body_handles s))).world i
        = some (applyAll (remove_body_handles (make_body_handles s)).cmds i c) := by
      have hm := findEnt_map s.world i
        (fun j x => applyAll (remove_body_handles (make_body_handles s)).cmds j x)
      rw [hfind] at hm
      exact hm
    have h6 : findEnt
        (flush_command_buffer (remove_collider_handles (make_collider_handles
          (flush_command_buffer (remove_body_handles (make_body_handles s)))))).world i
        = some (applyAll
            (remove_collider_handles (make_collider_handles
              (flush_command_buffer (remove_body_handles (make_body_handles s))))).cmds i
            (applyAll (remove_body_handles (make_body_handles s)).cmds i c)) := by
      have hm := findEnt_map
        (flush_command_buffer (remove_body_handles (make_body_handles s))).world i
        (fun j x => applyAll
          (remove_collider_handles (make_collider_handles
            (flush_command_buffer (remove_body_handles (make_body_handles s))))).cmds j x)
      rw [h3] at hm
      exact hm
    have h9 : findEnt (physics_world_to_entity_world
        (step_physics_world f (entity_world_to_physics_world (garbage
          (flush_command_buffer (remove_collider_handles (make_collider_handles
            (flush_command_buffer (remove_body_handles
              (make_body_handles s)))))))))).world i
        = some (pullComp
            (step_physics_world f (entity_world_to_physics_world (garbage
              (flush_command_buffer (remove_collider_handles (make_collider_handles
                (flush_command_buffer (remove_body_handles
                  (make_body_handles s))))))))).phys
            (applyAll
              (remove_collider_handles (make_collider_handles
                (flush_command_buffer (remove_body_handles
                  (make_body_handles s))))).cmds i
              (applyAll (remove_body_handles (make_body_handles s)).cmds i c))) := by
      have hm := findEnt_map
        (flush_command_buffer (remove_collider_handles (make_collider_handles
          (flush_command_buffer (remove_body_handles (make_body_handles s)))))).world i
        (fun _ x => pullComp
          (step_physics_world f (entity_world_to_physics_world (garbage
            (flush_command_buffer (remove_collider_handles (make_collider_handles
              (flush_command_buffer (remove_body_handles
                (make_body_handles s))))))))).phys x)
      rw [h6] at hm
      exact hm
    have k1 := applyAll_core (remove_body_handles (make_body_handles s)).cmds i c
    have k2 := applyAll_core
      (remove_collider_handles (make_collider_handles
        (flush_command_buffer (remove_body_handles (make_body_handles s))))).cmds i
      (applyAll (remove_body_handles (make_body_handles s)).cmds i c)
    refine ⟨_, h9, ?_, ?_⟩
    · have k3 := pullComp_pres
        (step_physics_world f (entity_world_to_physics_world (garbage
          (flush_command_buffer (remove_collider_handles (make_collider_handles
            (flush_command_buffer (remove_body_handles
              (make_body_handles s))))))))).phys
        (applyAll
          (remove_collider_handles (make_collider_handles
            (flush_command_buffer (remove_body_handles
              (make_body_handles s))))).cmds i
          (applyAll (remove_body_handles (make_body_handles s)).cmds i c))
      rw [k3.2.2.1, k2.2.2.2.1, k1.2.2.2.1]
    · intro hnd
      have h6d : (applyAll
          (remove_collider_handles (make_collider_handles
            (flush_command_buffer (remove_body_handles
              (make_body_handles s))))).cmds i
          (applyAll (remove_body_handles (make_body_handles s)).cmds i c)).dynamicBody
          = none := by
        rw [k2.2.2.2.1, k1.2.2.2.1, hnd]
      rw [pullComp_nondyn _ _ h6d]
      refine ⟨?_, ?_, ?_⟩
      · show (applyAll
            (remove_collider_handles (make_collider_handles
              (flush_command_buffer (remove_body_handles
                (make_body_handles s))))).cmds i
            (applyAll (remove_body_handles (make_body_handles s)).cmds i c)).position
          = c.position
        rw [k2.1, k1.1]
      · show (applyAll
            (remove_collider_handles (make_collider_handles
              (flush_command_buffer (remove_body_handles
                (make_body_handles s))))).cmds i
            (applyAll (remove_body_handles (make_body_handles s)).cmds i c)).velocity
          = c.velocity
        rw [k2.2.1, k1.2.1]
      · show (applyAll
            (remove_collider_handles (make_collider_handles
              (flush_command_buffer (remove_body_handles
                (make_body_handles s))))).cmds i
            (applyAll (remove_body_handles (make_body_handles s)).cmds i c)).orientation
          = c.orientation
        rw [k2.2.2.1, k1.2.2.1]

/-- C9: for every entity without `DynamicBody` (in particular every entity
with `StaticBody`), running any number of full ticks never changes its
`Position`, `Velocity` or `Orientation` components: the pull-back stage
writes only to entities that have `DynamicBody`, and no other registered
stage writes kinematic components at all. -/
theorem C9_static_never_overwritten (f : PhysicsResource → PhysicsResource)
    (N : ℕ) (s s' : State) (hrun : ticks f N s = Except.ok s')
    {i : ℕ} {c : EntityComps} (hfind : findEnt s.world i = some c)
    (hnd : c.dynamicBody = none) :
    ∃ c', findEnt s'.world i = some c' ∧ c'.position = c.position ∧
      c'.velocity = c.velocity ∧ c'.orientation = c.orientation ∧
      c'.dynamicBody = none := by
  induction N generalizing s c with
  | zero =>
    unfold ticks at hrun
    injection hrun with h
    subst h
    exact ⟨c, hfind, rfl, rfl, rfl, hnd⟩
  | succ n ih =>
    unfold ticks at hrun
    cases ht : tick f s with
    | error m =>
      rw [ht] at hrun
      exact Except.noConfusion hrun
    | ok s1 =>
      rw [ht] at hrun
      obtain ⟨c1, hfind1, hdyn1, hkin1⟩ := tick_preserves_components f s s1 ht hfind
      have hnd1 : c1.dynamicBody = none := by rw [hdyn1, hnd]
      obtain ⟨hkp, hkv, hko⟩ := hkin1 hnd
      obtain ⟨c', hf', hp', hv', ho', hd'⟩ := ih s1 hrun hfind1 hnd1
      exact ⟨c', hf', by rw [hp', hkp], by rw [hv', hkv], by rw [ho', hko], hd'⟩

/-- Witness for C9 at a concrete state, one tick. -/
theorem C9_witness :
    ∃ s', ticks (fun p => p) 1 staticWitState = Except.ok s' ∧
      ∃ c', findEnt s'.world 0 = some c' ∧
        c'.position = some ⟨.fin 1, .fin 2⟩ := by
  obtain ⟨c', hf, hp, _, _, _⟩ := C9_static_never_overwritten (fun p => p) 1
    staticWitState _ rfl (i := 0)
    (c := { staticBody := some (), position := some ⟨.fin 1, .fin 2⟩ })
    rfl rfl
  exact ⟨_, rfl, c', hf, by rw [hp]⟩

/-- Counterexample for C4: an entity with both `DynamicBody` and
`DisabledBody` (and all kinematic components) violates invariant 1 of the
spec, yet `validate_physics_entities` accepts the world: the validator never
checks `DisabledBody` coexistence. -/
theorem C4_counterexample :
    validate_physics_entities [(0, validatorCexComps)] = Except.ok () ∧
    spec_invariant1 validatorCexComps = false := ⟨rfl, rfl⟩

/-- C4 (amended): validation fails exactly when some entity fails the checks
the code performs — for `DynamicBody`: `Position`, `Velocity`, `Orientation`
present and no `StaticBody` (coexistence with `DisabledBody` is not
checked); for `StaticBody`: `Position` present and none of `Velocity`,
`Speed`, `Acceleration`, `Force` — and a failing validation aborts the tick
before any backend call; the panic message names the offending or missing
component and the body kind, but not the entity. -/
theorem C4_validator_amended (w : World) :
    (validate_physics_entities w = Except.ok () ↔
      ∀ e ∈ w, dynOk e.2 = true ∧ statOk e.2 = true) ∧
    (∀ (f : PhysicsResource → PhysicsResource) (s : State) (msg : String),
      s.world = w → validate_physics_entities w = Except.error msg →
      tick f s = Except.error msg) := by
  constructor
  · unfold validate_physics_entities
    cases h1 : w.findSome? (fun e => dynCheck e.2) with
    | some msg =>
      constructor
      · intro hcon
        exact Except.noConfusion hcon
      · intro hall
        rw [List.findSome?_eq_none_iff.mpr
          (fun e he => (dynCheck_none_iff e.2).mpr (hall e he).1)] at h1
        exact Option.noConfusion h1
    | none =>
      cases h2 : w.findSome? (fun e => statCheck e.2) with
      | some msg =>
        constructor
        · intro hcon
          exact Except.noConfusion hcon
        · intro hall
          rw [List.findSome?_eq_none_iff.mpr
            (fun e he => (statCheck_none_iff e.2).mpr (hall e he).2)] at h2
          exact Option.noConfusion h2
      | none =>
        constructor
        · intro _ e he
          have hd := List.findSome?_eq_none_iff.mp h1 e he
          have hs := List.findSome?_eq_none_iff.mp h2 e he
          exact ⟨(dynCheck_none_iff e.2).mp hd, (statCheck_none_iff e.2).mp hs⟩
        · intro _
          rfl
  · intro f s msg hw hval
    unfold tick
    rw [hw, hval]

/-- Witness for the amended C4: a static entity with a `Velocity` component
makes validation fail, carrying the message of the offending component, and
the whole tick aborts with that message. -/
theorem C4_witness :
    validate_physics_entities validatorWitWorld =
      Except.error "StaticBody cannot have a Velocity component" ∧
    tick (fun p => p) ⟨validatorWitWorld, emptyPhys, []⟩ =
      Except.error "StaticBody cannot have a Velocity component" :=
  ⟨rfl, (C4_validator_amended validatorWitWorld).2 (fun p => p)
    ⟨validatorWitWorld, emptyPhys, []⟩
    "StaticBody cannot have a Velocity component" rfl rfl⟩

/-- Counterexample for C5: a fresh dynamic entity whose body the (divergent)
backend step leaves with a non-finite velocity; after the full tick the
`Velocity` component holds that non-finite value unchanged — nothing clamps
it to zero. -/
theorem C5_counterexample :
    (tick nanStep nanCexState).map (fun s' =>
        (findEnt s'.world 0).map (fun c =>
          (c.velocity, c.velocity.map (fun v => v.x.isFinite && v.y.isFinite))))
      = Except.ok (some (some ⟨F.nan, F.fin 0⟩, some false)) := by rfl

/-- C5 (amended): the tick pipeline performs no clamping of non-finite
velocities: for every entity the pull-back touches, the backend velocity is
copied into `Velocity` unchanged even when non-finite, and `Position` is
overwritten from the backend as well; no warning is recorded (the `movement`
system, which contains the clamp-to-zero branch, is not registered by
`add_physics_systems`). -/
theorem C5_nonfinite_propagated (s : State) {i : ℕ} {c : EntityComps} {h : ℕ}
    {bod : RigidBody} (hfind : findEnt s.world i = some c)
    (hdyn : c.dynamicBody.isSome = true) (hh : c.bodyHandle = some h)
    (hch : c.bodyHandleChanged = true) (hbod : s.phys.bodies h = some bod)
    (hp : c.position.isSome = true) (hv : c.velocity.isSome = true)
    (ho : c.orientation.isSome = true)
    (hnf : (bod.linvel.x.isFinite && bod.linvel.y.isFinite) = false) :
    ∃ c', findEnt (physics_world_to_entity_world s).world i = some c' ∧
      c'.velocity = some bod.linvel ∧ c'.position = some bod.position ∧
      c'.velocity.map (fun v => v.x.isFinite && v.y.isFinite) = some false := by
  obtain ⟨d, hd⟩ := Option.isSome_iff_exists.mp hdyn
  obtain ⟨pv, hpv⟩ := Option.isSome_iff_exists.mp hp
  obtain ⟨vv, hvv⟩ := Option.isSome_iff_exists.mp hv
  obtain ⟨ov, hov⟩ := Option.isSome_iff_exists.mp ho
  have hcomp : pullComp s.phys c =
      { c with
          position := some bod.position,
          velocity := some bod.linvel,
          orientation := some bod.rotation.radToDeg,
          bodyHandleChanged := false } := by
    simp only [pullComp, hd, hh, hch, hbod, hpv, hvv, hov]
    rfl
  rw [findEnt_pull, hfind]
  refine ⟨_, rfl, by rw [hcomp], by rw [hcomp], ?_⟩
  rw [hcomp]
  show Option.map _ (some bod.linvel) = some false
  exact congrArg some hnf

/-- Witness for the amended C5 at a concrete state with an infinite backend
velocity. -/
theorem C5_witness :
    ∃ c', findEnt (physics_world_to_entity_world nanWitState).world 0 = some c' ∧
      c'.velocity = some ⟨.inf, .fin 0⟩ ∧ c'.position = some Vec2.zero ∧
      c'.velocity.map (fun v => v.x.isFinite && v.y.isFinite) = some false :=
  C5_nonfinite_propagated nanWitState (i := 0)
    (c := { dynamicBody := some ⟨1⟩, position := some Vec2.zero,
            velocity := some Vec2.zero, orientation := some (.fin 0),
            bodyHandle := some 0, bodyHandleChanged := true })
    (h := 0) rfl rfl rfl rfl rfl rfl rfl rfl rfl

theorem applyAll_adds_isSome (cmds : List Cmd) (i : ℕ) (c : EntityComps)
    (hall : ∀ cmd ∈ cmds, ∃ j h, cmd = Cmd.addBodyHandle j h)
    (hsrc : (∃ h, Cmd.addBodyHandle i h ∈ cmds) ∨ c.bodyHandle.isSome = true) :
    (applyAll cmds i c).bodyHandle.isSome = true := by
  induction cmds generalizing c with
  | nil =>
    rcases hsrc with ⟨h, hm⟩ | hs
    · simp at hm
    · exact hs
  | cons cmd cmds ih =>
    obtain ⟨j, h0, hcmd⟩ := hall cmd (List.mem_cons_self _ _)
    have hall2 : ∀ x ∈ cmds, ∃ j2 h2, x = Cmd.addBodyHandle j2 h2 :=
      fun x hx => hall x (List.mem_cons_of_mem _ hx)
    subst hcmd
    show (applyAll cmds i
      (applyCmdComp (Cmd.addBodyHandle j h0) i c)).bodyHandle.isSome = true
    by_cases hji : j = i
    · refine ih _ hall2 (Or.inr ?_)
      simp [applyCmdComp, hji]
    · rcases hsrc with ⟨h, hm⟩ | hs
      · rcases List.mem_cons.mp hm with heq | hm2
        · injection heq with h1 h2
          exact absurd h1.symm hji
        · exact ih _ hall2 (Or.inl ⟨h, hm2⟩)
      · refine ih _ hall2 (Or.inr ?_)
        rw [applyCmdComp_ne _ _ _ (by simpa [Cmd.entOf] using hji)]
        exact hs

theorem bodyCreatePass_fixed (w : World) (p : PhysicsResource)
    (hdone : ∀ e ∈ w, e.2.bodyHandle = none → bodyDescFor e.2 = none) :
    bodyCreatePass ⟨w, p, []⟩ = ⟨w, p, []⟩ := by
  have hnoop := mb_noop w p [] hdone
  have h1 : make_body_handles ⟨w, p, []⟩ = ⟨w, p, []⟩ := by
    show (⟨w, (make_body_handles_fold w p []).1,
      (make_body_handles_fold w p []).2⟩ : State) = ⟨w, p, []⟩
    rw [hnoop]
  show flush_command_buffer (make_body_handles ⟨w, p, []⟩) = ⟨w, p, []⟩
  rw [h1]
  show (⟨w.map (fun e => (e.1, applyAll [] e.1 e.2)), p, []⟩ : State) = ⟨w, p, []⟩
  have hmap : w.map (fun e => (e.1, applyAll [] e.1 e.2)) = w := by
    simp [applyAll]
  rw [hmap]

/-- C6: running the body-handle creation pass (with its following barrier)
twice in succession, with no component changes in between, is the same as
running it once: the second run matches no entity, inserts no backend body
and stages no component addition. -/
theorem C6_creation_idempotent (s : State) (hcs : s.cmds = []) :
    bodyCreatePass (bodyCreatePass s) = bodyCreatePass s := by
  obtain ⟨w, p, cs⟩ := s
  have hcs2 : cs = [] := hcs
  subst hcs2
  have hs1 : bodyCreatePass ⟨w, p, []⟩ =
      ⟨w.map (fun e =>
          (e.1, applyAll (make_body_handles_fold w p []).2 e.1 e.2)),
        (make_body_handles_fold w p []).1, []⟩ := rfl
  rw [hs1]
  apply bodyCreatePass_fixed
  intro e' he' hnone
  obtain ⟨e, hew, heq⟩ := List.mem_map.mp he'
  have hall : ∀ cmd ∈ (make_body_handles_fold w p []).2,
      ∃ j h, cmd = Cmd.addBodyHandle j h := by
    obtain ⟨t, ht, hA⟩ := mb_cmds_adds w p []
    intro cmd hm
    rw [ht] at hm
    exact hA cmd (by simpa using hm)
  have hcore := applyAll_core (make_body_handles_fold w p []).2 e.1 e.2
  have htags : bodyDescFor e'.2 = bodyDescFor e.2 := by
    rw [← heq]
    show bodyDescFor (applyAll (make_body_handles_fold w p []).2 e.1 e.2) =
      bodyDescFor e.2
    unfold bodyDescFor
    rw [hcore.2.2.2.1, hcore.2.2.2.2.1, hcore.2.2.2.2.2.1]
  cases hdd : bodyDescFor e.2 with
  | none => rw [htags, hdd]
  | some b =>
    exfalso
    have hnone2 : (applyAll (make_body_handles_fold w p []).2 e.1 e.2).bodyHandle
        = none := by
      rw [show applyAll (make_body_handles_fold w p []).2 e.1 e.2 = e'.2 from
        congrArg Prod.snd heq]
      exact hnone
    cases hbh : e.2.bodyHandle with
    | none =>
      obtain ⟨h, hm⟩ := mb_covers w p [] hew hbh hdd
      have := applyAll_adds_isSome (make_body_handles_fold w p []).2 e.1 e.2
        hall (Or.inl ⟨h, hm⟩)
      rw [hnone2] at this
      exact Bool.noConfusion this
    | some h0 =>
      have := applyAll_adds_isSome (make_body_handles_fold w p []).2 e.1 e.2
        hall (Or.inr (by rw [hbh]; rfl))
      rw [hnone2] at this
      exact Bool.noConfusion this

/-- Witness for C6 at a concrete state. -/
theorem C6_witness :
    idemWitState.cmds = [] ∧
    bodyCreatePass (bodyCreatePass idemWitState) = bodyCreatePass idemWitState :=
  ⟨rfl, C6_creation_idempotent idemWitState rfl⟩

/-- C7: after the handle lifecycle stage of a tick (creation pass, removal
pass, barrier), an entity carries a `BodyHandle` exactly when it carries a
body-kind tag — adding a tag yields exactly one handle, removing the tag
makes the handle absent — and for a removed tag the backend body the old
handle referenced is removed from the body set. -/
theorem C7_roundtrip (w : World) (p : PhysicsResource) {i : ℕ}
    {c : EntityComps} (hN : WFIds w) (hfind : findEnt w i = some c) :
    ∃ c', findEnt (bodyHandleStage ⟨w, p, []⟩).world i = some c' ∧
      c'.bodyHandle.isSome = hasBodyTag c ∧
      (hasBodyTag c = false → ∀ h, c.bodyHandle = some h →
        (bodyHandleStage ⟨w, p, []⟩).phys.bodies h = none) := by
  obtain ⟨c', h1, _, _, _, _, _, _, _, _, _, h10, _, h12⟩ :=
    bodyHandleStage_spec w p hN hfind
  exact ⟨c', h1, h10, h12⟩

/-- Witness for C7: entity 0 just received a body-kind tag and gets a handle;
entity 1 just lost its tag, its handle disappears and its backend body is
removed. -/
theorem C7_witness :
    (∃ c', findEnt (bodyHandleStage ⟨roundtripWitState.world,
        roundtripWitState.phys, []⟩).world 0 = some c' ∧
      c'.bodyHandle.isSome = true) ∧
    (∃ c', findEnt (bodyHandleStage ⟨roundtripWitState.world,
        roundtripWitState.phys, []⟩).world 1 = some c' ∧
      c'.bodyHandle.isSome = false) ∧
    (bodyHandleStage ⟨roundtripWitState.world, roundtripWitState.phys,
      []⟩).phys.bodies 0 = none := by
  obtain ⟨c0, h0f, h0iff, _⟩ := C7_roundtrip roundtripWitState.world
    roundtripWitState.phys (i := 0)
    (c := { staticBody := some (), position := some Vec2.zero }) (by decide) rfl
  obtain ⟨c1, h1f, h1iff, h1rem⟩ := C7_roundtrip roundtripWitState.world
    roundtripWitState.phys (i := 1) (c := { bodyHandle := some 0 })
    (by decide) rfl
  exact ⟨⟨c0, h0f, h0iff⟩, ⟨c1, h1f, h1iff⟩, h1rem rfl 0 rfl⟩

/-- C8: for every entity with a body-kind tag and no `BodyHandle`, the body
creation pass inserts a backend body built from the descriptor that matches
its tag — `DynamicBody` with mass m: dynamic status, gravity disabled,
mass m; otherwise `StaticBody`: static status; otherwise `DisabledBody`:
disabled status — and stores the returned handle on the entity as a new
component at the following barrier. -/
theorem C8_descriptor (w : World) (p : PhysicsResource) {i : ℕ}
    {c : EntityComps} (hN : WFIds w) (hfind : findEnt w i = some c)
    (hnone : c.bodyHandle = none) (htag : hasBodyTag c = true) :
    ∃ h c', findEnt (bodyCreatePass ⟨w, p, []⟩).world i = some c' ∧
      c'.bodyHandle = some h ∧
      (bodyCreatePass ⟨w, p, []⟩).phys.bodies h = bodyDescFor c ∧
      (∀ d, c.dynamicBody = some d →
        (bodyCreatePass ⟨w, p, []⟩).phys.bodies h =
          some { rigidBodyDescNew with
                  status := .Dynamic, gravity_enabled := false,
                  mass := d.mass }) ∧
      (c.dynamicBody = none → c.staticBody.isSome = true →
        (bodyCreatePass ⟨w, p, []⟩).phys.bodies h =
          some { rigidBodyDescNew with status := .Static }) ∧
      (c.dynamicBody = none → c.staticBody = none →
        c.disabledBody.isSome = true →
        (bodyCreatePass ⟨w, p, []⟩).phys.bodies h =
          some { rigidBodyDescNew with status := .Disabled }) := by
  have hbs : (bodyDescFor c).isSome = true := by rw [bodyDescFor_isSome, htag]
  obtain ⟨b, hd⟩ := Option.isSome_iff_exists.mp hbs
  obtain ⟨h, hfil, hbod, hle⟩ := mb_filter_match w p [] hN hfind hnone hd
  have hfind2 : findEnt (bodyCreatePass ⟨w, p, []⟩).world i =
      some (applyAll (((make_body_handles_fold w p []).2).filter
        (fun cmd => cmd.entOf == i)) i c) := by
    have hm := findEnt_map w i
      (fun j x => applyAll (make_body_handles_fold w p []).2 j x)
    rw [hfind] at hm
    have hm2 : findEnt (bodyCreatePass ⟨w, p, []⟩).world i
        = some (applyAll (make_body_handles_fold w p []).2 i c) := hm
    rw [applyAll_filter] at hm2
    exact hm2
  rw [hfil] at hfind2
  have happ : applyAll (List.filter (fun cmd => cmd.entOf == i) [] ++
      [Cmd.addBodyHandle i h]) i c =
      { c with bodyHandle := some h, bodyHandleChanged := true } := by
    simp [applyAll, applyCmdComp]
  rw [happ] at hfind2
  have hphys : (bodyCreatePass ⟨w, p, []⟩).phys.bodies h = some b := hbod
  refine ⟨h, _, hfind2, rfl, ?_, ?_, ?_, ?_⟩
  · rw [hphys, hd]
  · intro d hdd
    unfold bodyDescFor at hd
    rw [hdd] at hd
    injection hd with hb
    rw [hphys, ← hb]
  · intro hdn hst
    obtain ⟨u, hsu⟩ := Option.isSome_iff_exists.mp hst
    unfold bodyDescFor at hd
    rw [hdn, hsu] at hd
    injection hd with hb
    rw [hphys, ← hb]
  · intro hdn hsn hdis
    obtain ⟨u, hsu⟩ := Option.isSome_iff_exists.mp hdis
    unfold bodyDescFor at hd
    rw [hdn, hsn, hsu] at hd
    injection hd with hb
    rw [hphys, ← hb]

/-- Witness for C8: a fresh dynamic entity of mass 2 gets a handle to a
dynamic-status, gravity-disabled body of mass 2. -/
theorem C8_witness :
    ∃ h c', findEnt (bodyCreatePass ⟨descWitState.world,
        descWitState.phys, []⟩).world 0 = some c' ∧
      c'.bodyHandle = some h ∧
      (bodyCreatePass ⟨descWitState.world, descWitState.phys,
        []⟩).phys.bodies h =
        some { rigidBodyDescNew with
                status := .Dynamic, gravity_enabled := false, mass := 2 } := by
  obtain ⟨h, c', hf, hbh, _, hdyn, _, _⟩ := C8_descriptor descWitState.world
    descWitState.phys (i := 0)
    (c := { dynamicBody := some ⟨2⟩, position := some Vec2.zero,
            velocity := some Vec2.zero, orientation := some (.fin 0) })
    (by decide) rfl rfl rfl
  exact ⟨h, c', hf, hbh, hdyn ⟨2⟩ rfl⟩

/-- Counterexample for C2: an entity whose body-kind tag was removed while
its collider-shape tag was kept enters a tick with both handles; the tick
removes its `BodyHandle` (and backend body) but keeps its `ColliderHandle`,
so invariant 3 is violated after the tick completes. -/
theorem C2_counterexample :
    (tick (fun p => p) inv3CexState).map (fun s' =>
        (s'.world.all (fun e => spec_invariant3 e.2),
          (findEnt s'.world 1).map (fun c => (c.colliderHandle, c.bodyHandle))))
      = Except.ok (false, some (some 0, none)) := by rfl

/-- C2 (amended): after a full tick, every entity with `ColliderHandle` also
has `BodyHandle`, provided every entity carrying a collider-shape tag also
carries a body-kind tag; without that proviso the invariant can be broken
by removing a body-kind tag while keeping the shape tag. -/
theorem C2_inv3_amended (f : PhysicsResource → PhysicsResource) (s s' : State)
    (hN : WFIds s.world) (hcs : s.cmds = [])
    (hshape : ∀ e ∈ s.world, hasShapeTag e.2 = true → hasBodyTag e.2 = true)
    (hrun : tick f s = Except.ok s') {i : ℕ} {c' : EntityComps}
    (hfind : findEnt s'.world i = some c')
    (hch : c'.colliderHandle.isSome = true) :
    c'.bodyHandle.isSome = true := by
  obtain ⟨w, p, cs⟩ := s
  have hcs2 : cs = [] := hcs
  subst hcs2
  unfold tick at hrun
  cases hval : validate_physics_entities (State.mk w p []).world with
  | error msg =>
    rw [hval] at hrun
    exact Except.noConfusion hrun
  | ok u =>
    rw [hval] at hrun
    injection hrun with hs'
    subst hs'
    cases h0 : findEnt w i with
    | none =>
      have hX : findEnt (flush_command_buffer (remove_body_handles
          (make_body_handles ⟨w, p, []⟩))).world i = none := by
        have hm := findEnt_map w i (fun j x =>
          applyAll (remove_body_handles (make_body_handles
            (⟨w, p, []⟩ : State))).cmds j x)
        rw [h0] at hm
        exact hm
      have hY : findEnt (flush_command_buffer (remove_collider_handles
          (make_collider_handles (flush_command_buffer (remove_body_handles
            (make_body_handles ⟨w, p, []⟩)))))).world i = none := by
        have hm := findEnt_map (flush_command_buffer (remove_body_handles
          (make_body_handles (⟨w, p, []⟩ : State)))).world i (fun j x =>
          applyAll (remove_collider_handles (make_collider_handles
            (flush_command_buffer (remove_body_handles (make_body_handles
              (⟨w, p, []⟩ : State)))))).cmds j x)
        rw [hX] at hm
        exact hm
      have hS : findEnt (physics_world_to_entity_world (step_physics_world f
          (entity_world_to_physics_world (garbage (flush_command_buffer
            (remove_collider_handles (make_collider_handles
              (flush_command_buffer (remove_body_handles (make_body_handles
                ⟨w, p, []⟩)))))))))).world i = none := by
        have hm := findEnt_map (flush_command_buffer (remove_collider_handles
          (make_collider_handles (flush_command_buffer (remove_body_handles
            (make_body_handles (⟨w, p, []⟩ : State))))))).world i (fun _ x =>
          pullComp (step_physics_world f (entity_world_to_physics_world
            (garbage (flush_command_buffer (remove_collider_handles
              (make_collider_handles (flush_command_buffer
                (remove_body_handles (make_body_handles
                  (⟨w, p, []⟩ : State)))))))))).phys x)
        rw [hY] at hm
        exact hm
      rw [hfind] at hS
      exact Option.noConfusion hS
    | some c0 =>
      obtain ⟨c3, hf3, p3pos, p3vel, p3ori, p3dyn, p3stat, p3dis, p3circ,
        p3sq, p3coll, p3iff, p3keep, p3rem⟩ := bodyHandleStage_spec w p hN h0
      have hN3 : WFIds (bodyHandleStage ⟨w, p, []⟩).world := by
        show ((bodyHandleStage ⟨w, p, []⟩).world.map Prod.fst).Nodup
        have hmm : ((bodyHandleStage ⟨w, p, []⟩).world.map Prod.fst) =
            w.map Prod.fst :=
          map_keyed_fst w (fun j x =>
            applyAll (remove_body_handles (make_body_handles
              (⟨w, p, []⟩ : State))).cmds j x)
        rw [hmm]
        exact hN
      obtain ⟨c6, hf6, q1, q2, q3, q4, q5, q6, q7, q8, qbh, qbc, qsf, qkeep,
        qnb, qcr⟩ := colliderHandleStage_spec (bodyHandleStage ⟨w, p, []⟩).world
          (bodyHandleStage ⟨w, p, []⟩).phys hN3 hf3
      have hS : findEnt (physics_world_to_entity_world (step_physics_world f
          (entity_world_to_physics_world (garbage (flush_command_buffer
            (remove_collider_handles (make_collider_handles
              (flush_command_buffer (remove_body_handles (make_body_handles
                ⟨w, p, []⟩)))))))))).world i =
          some (pullComp (step_physics_world f (entity_world_to_physics_world
            (garbage (flush_command_buffer (remove_collider_handles
              (make_collider_handles (flush_command_buffer
                (remove_body_handles (make_body_handles
                  (⟨w, p, []⟩ : State)))))))))).phys c6) := by
        have hm := findEnt_map (colliderHandleStage
          ⟨(bodyHandleStage ⟨w, p, []⟩).world,
            (bodyHandleStage ⟨w, p, []⟩).phys, []⟩).world i (fun _ x =>
          pullComp (step_physics_world f (entity_world_to_physics_world
            (garbage (flush_command_buffer (remove_collider_handles
              (make_collider_handles (flush_command_buffer
                (remove_body_handles (make_body_handles
                  (⟨w, p, []⟩ : State)))))))))).phys x)
        rw [hf6] at hm
        exact hm
      rw [hfind] at hS
      injection hS with hc'
      have hpres := pullComp_pres (step_physics_world f
        (entity_world_to_physics_world (garbage (flush_command_buffer
          (remove_collider_handles (make_collider_handles
            (flush_command_buffer (remove_body_handles (make_body_handles
              (⟨w, p, []⟩ : State)))))))))).phys c6
      rw [hc', hpres.2.1] at hch
      rw [hc', hpres.1]
      cases hst : hasShapeTag c3 with
      | false =>
        rw [qsf hst] at hch
        exact Bool.noConfusion hch
      | true =>
        have hst0 : hasShapeTag c0 = true := by
          unfold hasShapeTag at hst ⊢
          rw [← p3circ, ← p3sq]
          exact hst
        have htag0 : hasBodyTag c0 = true := hshape _ (findEnt_mem h0) hst0
        rw [qbh, p3iff, htag0]

/-- Witness for the amended C2: a static entity with a circle collider tag
and no handles yet; after the tick it has both handles. -/
theorem C2_witness :
    ∃ s' c', tick (fun p => p) inv3WitState = Except.ok s' ∧
      findEnt s'.world 0 = some c' ∧ c'.colliderHandle.isSome = true ∧
      c'.bodyHandle.isSome = true := by
  have h := C2_inv3_amended (fun p => p) inv3WitState _ (by decide) rfl
    (by decide) rfl (i := 0) rfl rfl
  exact ⟨_, _, rfl, rfl, rfl, h⟩

/-- Counterexample for C3: an entity that switched from `CircleCollider`
(radius 1) to `SquareCollider` (side 2) before the tick, still holding the
collider handle of the circle.  The tick neither releases the old handle nor
inserts a new collider: afterwards the entity still holds handle 0 and the
backend still holds the old ball-shaped collider — not a collider of the new
shape. -/
theorem C3_counterexample :
    (tick (fun p => p) switchCexState).map (fun s' =>
        ((findEnt s'.world 0).map (fun c => c.colliderHandle),
          s'.phys.colliders 0))
      = Except.ok (some (some 0), some ⟨.ball 1, 0⟩) := by rfl

/-- C3 (amended): for an entity that switches its collider-shape tag within
one tick while already holding a `ColliderHandle`, the collider pass is a
no-op for it: the filters of `make_collider_handles` (no `ColliderHandle`)
and `remove_collider_handles` (no shape tag) both reject it, so the old
handle is kept unchanged and the backend collider it references (still of
the old shape) is neither released nor replaced.  No two live collider
handles ever coexist for the entity — but only because no new collider is
ever created. -/
theorem C3_switch_amended (w : World) (p : PhysicsResource) {i : ℕ}
    {c : EntityComps} {h : ℕ} (hN : WFIds w) (hfind : findEnt w i = some c)
    (hsq : c.squareCollider.isSome = true) (hch : c.colliderHandle = some h)
    (huniq : ∀ e ∈ w, e.1 ≠ i → e.2.colliderHandle ≠ some h)
    (hWFc : h < p.nextCollider) :
    ∃ c', findEnt (colliderHandleStage ⟨w, p, []⟩).world i = some c' ∧
      c'.colliderHandle = some h ∧
      (colliderHandleStage ⟨w, p, []⟩).phys.colliders h = p.colliders h := by
  have hst : hasShapeTag c = true := by
    unfold hasShapeTag
    rw [hsq]
    simp
  obtain ⟨c', hf, _, _, _, _, _, _, _, _, _, _, _, qkeep, _, _⟩ :=
    colliderHandleStage_spec w p hN hfind
  refine ⟨c', hf, ?_, ?_⟩
  · rw [qkeep hst (by rw [hch]; simp), hch]
  · have hmc : (make_collider_handles_fold w p []).1.colliders h = p.colliders h :=
      mc_colliders_lt w p [] h hWFc
    have hsafe : ∀ e ∈ w, hasShapeTag e.2 = false →
        e.2.colliderHandle ≠ some h := by
      intro e he hfalse
      by_cases hei : e.1 = i
      · have hmem : (i, e.2) ∈ w := by
          rw [← hei]
          exact he
        have hfe := findEnt_of_mem hN hmem
        rw [hfind] at hfe
        injection hfe with hce
        rw [← hce] at hfalse
        rw [hst] at hfalse
        exact Bool.noConfusion hfalse
      · exact huniq e he hei
    have hrc := rc_colliders_pres w (make_collider_handles_fold w p []).1
      (make_collider_handles_fold w p []).2 h hsafe
    calc (colliderHandleStage ⟨w, p, []⟩).phys.colliders h
        = (remove_collider_handles_fold w (make_collider_handles_fold w p []).1
            (make_collider_handles_fold w p []).2).1.colliders h := rfl
      _ = (make_collider_handles_fold w p []).1.colliders h := hrc
      _ = p.colliders h := hmc

/-- Witness for the amended C3 at a concrete state. -/
theorem C3_witness :
    ∃ c', findEnt (colliderHandleStage ⟨switchWitState.world,
        switchWitState.phys, []⟩).world 0 = some c' ∧
      c'.colliderHandle = some 0 ∧
      (colliderHandleStage ⟨switchWitState.world, switchWitState.phys,
        []⟩).phys.colliders 0 = switchWitState.phys.colliders 0 :=
  C3_switch_amended switchWitState.world switchWitState.phys (i := 0)
    (c := { squareCollider := some 2, colliderHandle := some 0,
            bodyHandle := some 0 })
    (h := 0) (by decide) rfl rfl rfl (by decide) (by decide)

end Deeper
